import Mathlib

/-!
Verification development for the DXIL resource-binding remap engine of
`Graphics/ShaderTools/src/DXCompiler.cpp` (DiligentCore).

The C++ code performs regex-like textual edits on a disassembled DXIL buffer
(`std::string`), addressed by byte offsets.  We embed the buffer as `List Char`
and each `std::string` operation used by the patchers as a Lean function with
the same semantics.  Machine integers (`Uint32`) are embedded as `Nat` with an
explicit `% 2^32` wherever the C++ arithmetic can wrap; `std::stoi` (which can
throw) is embedded as an `Option`-returning parser.  Development-only checks
(`VERIFY_EXPR`, `DEV_CHECK_ERR`) are no-ops in release builds and are embedded
as no-ops; `LOG_ERROR_AND_THROW` becomes an `Except` error carrying the
message text.
-/

/-- Buffer of characters standing for the `std::string` DXIL text. -/
abbrev Str := List Char

/-- Character read `DXIL[i]`.  `std::string::operator[]` at `size()` yields the
NUL terminator; reads past that never happen on the paths we model, so the NUL
default is faithful. -/
def charAt (s : Str) (i : Nat) : Char := s.getD i (Char.ofNat 0)

/-- Test that `pat` occurs in `s` starting at offset `i` (the semantics of
`std::strncmp(&s[i], pat, strlen pat) == 0`, where a short tail fails the
comparison at the NUL terminator). -/
def matchAt (s : Str) (i : Nat) (pat : Str) : Bool := pat.isPrefixOf (s.drop i)

/-- Offset of the first occurrence of `pat` in `s` (helper for `strFind`). -/
def firstOcc (s pat : Str) : Option Nat :=
  match s with
  | [] => if pat.isEmpty then some 0 else none
  | _ :: rest => if pat.isPrefixOf s then some 0 else (firstOcc rest pat).map (· + 1)

/-- The semantics of `std::string::find(pat, i)`: smallest `j ≥ i` such that
`pat` occurs at `j`, `none` for `npos`. -/
def strFind (s pat : Str) (i : Nat) : Option Nat := (firstOcc (s.drop i) pat).map (· + i)

/-- The semantics of `std::string::rfind(pat, i)`: largest `j ≤ i` such that
`pat` occurs at `j`, `none` for `npos`. -/
def rfindUpTo (s pat : Str) : Nat → Option Nat
  | 0 => if matchAt s 0 pat then some 0 else none
  | i + 1 => if matchAt s (i + 1) pat then some (i + 1) else rfindUpTo s pat i

/-- Offset of the first character of `s` not contained in `set` (helper for
`strFindFirstNotOf`). -/
def firstIdxNotOf (set : Str) : Str → Option Nat
  | [] => none
  | c :: rest => if set.contains c then (firstIdxNotOf set rest).map (· + 1) else some 0

/-- The semantics of `std::string::find_first_not_of(set, i)`. -/
def strFindFirstNotOf (s set : Str) (i : Nat) : Option Nat :=
  (firstIdxNotOf set (s.drop i)).map (· + i)

/-- The semantics of `std::string::substr(pos, len)` on the in-bounds uses the
patchers make of it. -/
def substr (s : Str) (pos len : Nat) : Str := (s.drop pos).take len

/-- The semantics of `std::string::replace(pos, len, t)` on in-bounds uses. -/
def strReplace (s : Str) (pos len : Nat) (t : Str) : Str :=
  s.take pos ++ t ++ s.drop (pos + len)

/-- The semantics of `std::string::insert(pos, t)` on in-bounds uses. -/
def strInsert (s : Str) (pos : Nat) (t : Str) : Str := s.take pos ++ t ++ s.drop pos

/-- `IsWordSymbol` from DXCompiler.cpp. -/
def IsWordSymbol (c : Char) : Bool :=
  let n := c.toNat
  (48 ≤ n && n ≤ 57) || (97 ≤ n && n ≤ 122) || (65 ≤ n && n ≤ 90) || n == 95

/-- `IsNumberSymbol` from DXCompiler.cpp. -/
def IsNumberSymbol (c : Char) : Bool :=
  let n := c.toNat
  48 ≤ n && n ≤ 57

/-- Numeric value of a maximal leading run of decimal digits, `none` when the
first character is not a digit (accumulator `acc` carries digits already
read). -/
def digitRun (acc : Nat) : Str → Nat × Str
  | [] => (acc, [])
  | c :: rest =>
    if IsNumberSymbol c then digitRun (acc * 10 + (c.toNat - 48)) rest
    else (acc, c :: rest)

/-- Parse an optional sign followed by at least one decimal digit, as both
`std::stoi` and `std::atoi` do after whitespace skipping.  Returns the
unbounded integer value, `none` when no digit follows. -/
def parseSignedDigits (s : Str) : Option Int :=
  let core : Str → Option Nat := fun t =>
    match t with
    | [] => none
    | c :: _ => if IsNumberSymbol c then some (digitRun 0 t).1 else none
  match s with
  | [] => none
  | c :: rest =>
    if c = '+' then (core rest).map (Int.ofNat ·)
    else if c = '-' then (core rest).map (fun n => -(Int.ofNat n))
    else (core (c :: rest)).map (Int.ofNat ·)

/-- Whitespace characters skipped by `std::stoi`/`std::atoi`. -/
def isSpaceChar (c : Char) : Bool :=
  c = ' ' || c = '\t' || c = '\n' || c = '\r' || c.toNat == 11 || c.toNat == 12

/-- The semantics of `std::stoi`: skip whitespace, parse sign and digits;
`none` models both `std::invalid_argument` (no digits) and
`std::out_of_range` (value outside `int`). -/
def stoiOpt (s : Str) : Option Int :=
  match parseSignedDigits (s.dropWhile isSpaceChar) with
  | none => none
  | some v => if v ≤ 2147483647 ∧ -2147483648 ≤ v then some v else none

/-- `static_cast<Uint32>` of a C++ `int`: reduction modulo `2^32`. -/
def toU32 (v : Int) : Nat := (v.emod 4294967296).toNat

/-- `static_cast<Uint32>(std::stoi(s))`, the parse used by `ReplaceRecord`,
`ReadRecord` and `ReplaceBindPoint`. -/
def stoiU32 (s : Str) : Option Nat := (stoiOpt s).map toU32

/-- The semantics of `std::atoi(s.c_str() + i)`: like `stoi` but yielding `0`
instead of failing on a digit-free head (overflow of `atoi` is undefined
behaviour in C++; the inputs the code feeds it are small record ids and
resource-class tags, embedded here as the unbounded parse). -/
def atoiAt (s : Str) (i : Nat) : Int :=
  (parseSignedDigits ((s.drop i).dropWhile isSpaceChar)).getD 0

/-- `std::to_string` of a `Uint32` value. -/
def u32Str (n : Nat) : Str := (Nat.repr n).data

/-! ## Data model

`TResourceBindingMap` maps resource names to the caller's desired `BindInfo`
(declared in DXCompilerBase; its fields used here are `BindPoint`, `Space`,
`ArraySize`, all `Uint32`).  `ResourceExtendedInfo` and `RES_TYPE` are from
`DXCompilerImpl`.  The C++ `TExtendedResourceMap` is an `unordered_map` keyed
by the address of a binding-map entry; we embed both containers as lists, with
an `idx` field standing for the entry identity and the list order standing for
one admissible (unspecified) iteration order of the hash map. -/

/-- `RES_TYPE` of `DXCompilerImpl` (the numeric values of the C++ enum are
never used arithmetically; `RES_TYPE_COUNT` only appears in development-only
checks and is omitted). -/
inductive RES_TYPE
  | CBV
  | SRV
  | SAMPLER
  | UAV
  | INVALID
deriving DecidableEq, Repr

/-- Caller-requested binding ( the fields of `BindInfo` that the remap engine
reads; all `Uint32`). -/
structure BindInfo where
  BindPoint : Nat
  Space : Nat
  ArraySize : Nat
deriving DecidableEq, Repr

/-- `ResourceExtendedInfo` of `DXCompilerImpl`; `~0u` defaults become
`4294967295`; the source field `Type` is spelled `Ty` because `Type` is a
Lean keyword. -/
structure ResourceExtendedInfo where
  SrcBindPoint : Nat := 4294967295
  SrcSpace : Nat := 4294967295
  RecordId : Nat := 4294967295
  Ty : RES_TYPE := RES_TYPE.INVALID
deriving DecidableEq, Repr

/-- One entry of the extended resource map: the identity (`idx`) and contents
(`name`, `bind`) of the underlying binding-map entry together with its
`ResourceExtendedInfo`. -/
structure ExtEntry where
  idx : Nat
  name : String
  bind : BindInfo
  info : ResourceExtendedInfo
deriving DecidableEq, Repr

/-- The caller's binding map (iteration order fixed by the list). -/
abbrev TResourceBindingMap := List (String × BindInfo)

/-- The extended resource map (iteration order fixed by the list). -/
abbrev TExtendedResourceMap := List ExtEntry

/-- Exceptions thrown out of the patch passes: `patchErr` is
`LOG_ERROR_AND_THROW` with the full message text, `stdEx` is an exception
from the standard library (`std::stoi`).  Both are caught by the
`try`/`catch` of `PatchDXIL`. -/
inductive PatchEx
  | patchErr (msg : String)
  | stdEx (what : String)
deriving DecidableEq, Repr

/-- Decidable equality for `Except` results (needed to evaluate the embedded
functions on concrete inputs). -/
instance {e a : Type} [DecidableEq e] [DecidableEq a] : DecidableEq (Except e a) := fun x y =>
  match x, y with
  | .ok u, .ok v => decidable_of_iff (u = v) (by simp)
  | .error u, .error v => decidable_of_iff (u = v) (by simp)
  | .ok _, .error _ => isFalse (by simp)
  | .error _, .ok _ => isFalse (by simp)

/-- Message text built by the `CHECK_PATCHING_ERROR` macro of `ReplaceRecord`,
`PatchResourceDeclarationRT`: `"Unable to patch DXIL for resource '<Name>': "`
followed by the condition-specific arguments. -/
def mkPatchMsg (Name : String) (rest : String) : String :=
  "Unable to patch DXIL for resource '" ++ Name ++ "': " ++ rest

/-- Message text built by the `CHECK_PATCHING_ERROR` macro of
`PatchResourceDeclaration`. -/
def mkDeclMsg (rest : String) : String := "Unable to patch DXIL: " ++ rest

/-- Message text built by the `CHECK_PATCHING_ERROR` macro of
`PatchResourceHandle`. -/
def mkHandleMsg (rest : String) : String :=
  "Unable to patch DXIL createHandle(): " ++ rest

/-- `NumberSymbols` constant of DXCompiler.cpp. -/
def NumberSymbols : Str := "+-0123456789".data

/-- The `i32` constant of DXCompiler.cpp (`"i32 "`). -/
def i32Tok : Str := "i32 ".data

/-- The `i8` constant of DXCompiler.cpp (`"i8 "`). -/
def i8Tok : Str := "i8 ".data

/-- `ResourceRecStart` constant (`"= !{"`). -/
def ResourceRecStart : Str := "= !\x7b".data

/-- `ResNameDecl` constant (`", !\""`). -/
def ResNameDecl : Str := ", !\"".data

/-- `ReplaceRecord` (DXCompiler.cpp:1053): parse the `", i32 <n>"` record at
`pos`, compare the parsed value with `ExpectedPrevValue`, and on success
replace the numeral with `NewValue`, returning the edited buffer and the
position just past the replacement.  The source's post-parse check reads
`pos != String::npos` (instead of `RecordEndPos`), which is vacuously true and
is embedded as no check. -/
def ReplaceRecord (DXIL : Str) (pos : Nat) (NewValue : Str) (Name : String)
    (RecordName : String) (ExpectedPrevValue : Nat) : Except PatchEx (Str × Nat) :=
  if ¬ (pos + 1 < DXIL.length ∧ charAt DXIL pos = ',' ∧ charAt DXIL (pos + 1) = ' ') then
    .error (.patchErr (mkPatchMsg Name (RecordName ++ " record is not found")))
  else
    let pos := pos + 2
    if ¬ matchAt DXIL pos i32Tok then
      .error (.patchErr (mkPatchMsg Name ("unexpected " ++ RecordName ++ " record type")))
    else
      let pos := pos + 4
      let RecordEndPos := (strFindFirstNotOf DXIL NumberSymbols pos).getD DXIL.length
      match stoiU32 (substr DXIL pos (RecordEndPos - pos)) with
      | none => .error (.stdEx "stoi")
      | some PrevValue =>
        if PrevValue ≠ ExpectedPrevValue then
          .error (.patchErr (mkPatchMsg Name "previous value does not match the expected"))
        else
          .ok (strReplace DXIL pos (RecordEndPos - pos) NewValue, pos + NewValue.length)

/-- The `ReadRecord` lambda of `PatchResourceDeclaration` (DXCompiler.cpp:1237):
`.ok (none, pos)` is `return false` with the by-reference cursor left at `pos`;
`.ok (some v, pos)` is `return true` with the parsed value; `.error` is a
`std::stoi` exception escaping the lambda.  Its vacuous `pos == npos` check is
embedded as no check. -/
def ReadRecord (DXIL : Str) (pos : Nat) : Except PatchEx (Option Nat × Nat) :=
  if ¬ (pos + 1 < DXIL.length ∧ charAt DXIL pos = ',' ∧ charAt DXIL (pos + 1) = ' ') then
    .ok (none, pos)
  else
    let pos := pos + 2
    if ¬ matchAt DXIL pos i32Tok then .ok (none, pos)
    else
      let pos := pos + 4
      let RecordEndPos := (strFindFirstNotOf DXIL NumberSymbols pos).getD DXIL.length
      match stoiU32 (substr DXIL pos (RecordEndPos - pos)) with
      | none => .error (.stdEx "stoi")
      | some v => .ok (some v, RecordEndPos)

/-- Structural core of the `ReadResName` scan over the buffer suffix: skip
word symbols; stop successfully at `'"'` (offset of the quote), fail at any
other character or at the end (offset of the stop). -/
def readResNameAux : Str → Option Nat × Nat
  | [] => (none, 0)
  | c :: rest =>
    if IsWordSymbol c then
      match readResNameAux rest with
      | (o, d) => (o.map (· + 1), d + 1)
    else if c = '"' then (some 0, 0)
    else (none, 0)

/-- Scanning core of the `ReadResName` lambda (DXCompiler.cpp:1266): advance
over word symbols; stop successfully at `'"'` (returning its offset), fail at
any other character or at the end of the buffer.  The final cursor is returned
in both cases (the lambda takes `pos` by reference). -/
def readResNameEnd (DXIL : Str) (pos : Nat) : Option Nat × Nat :=
  match readResNameAux (DXIL.drop pos) with
  | (some k, _) => (some (pos + k), pos + k)
  | (none, d) => (none, pos + d)

/-- The `ReadResName` lambda: on success the parsed name is
`substr startPos (endQuote - startPos)`. -/
def ReadResName (DXIL : Str) (pos : Nat) : Option Str × Nat :=
  match readResNameEnd DXIL pos with
  | (some endQuote, p) => (some (substr DXIL pos (endQuote - pos)), p)
  | (none, p) => (none, p)

/-- Structural core of the `NextArg` scan over the buffer suffix. -/
def nextArgAux : Str → Bool × Nat
  | [] => (false, 0)
  | c :: rest =>
    if c = ',' then (true, 0)
    else if c = ')' ∨ c = '\n' then (false, 0)
    else
      match nextArgAux rest with
      | (b, d) => (b, d + 1)

/-- The `NextArg` lambda of `PatchResourceHandle` (DXCompiler.cpp:1529):
advance to the next `','` (true) or stop at `')'`/newline/end of buffer
(false); cursor returned in both cases. -/
def NextArg (DXIL : Str) (pos : Nat) : Bool × Nat :=
  match nextArgAux (DXIL.drop pos) with
  | (b, d) => (b, pos + d)

/-- Length of the leading digit run of a buffer suffix. -/
def skipDigitsAux : Str → Nat
  | [] => 0
  | c :: rest => if IsNumberSymbol c then skipDigitsAux rest + 1 else 0

/-- Digit-run skip used in the dynamic-index branch of `PatchResourceHandle`
(`for (; pos < DXIL.size(); ++pos) if (!IsNumberSymbol c) break`). -/
def skipDigits (DXIL : Str) (pos : Nat) : Nat := pos + skipDigitsAux (DXIL.drop pos)

/-- The `IsTextureSuffix` lambda of `PatchResourceDeclaration`
(DXCompiler.cpp:1224). -/
def IsTextureSuffix (DXIL : Str) (pos : Nat) : Bool :=
  matchAt DXIL pos "1D<".data || matchAt DXIL pos "1DArray<".data ||
  matchAt DXIL pos "2D<".data || matchAt DXIL pos "2DArray<".data ||
  matchAt DXIL pos "3D<".data || matchAt DXIL pos "2DMS<".data ||
  matchAt DXIL pos "2DMSArray<".data || matchAt DXIL pos "Cube<".data ||
  matchAt DXIL pos "CubeArray<".data

/-! ## Handle-creation patcher (`PatchResourceHandle`, DXCompiler.cpp:1521) -/

/-- `CallHandlePattern` constant. -/
def CallHandlePattern : Str := " = call %dx.types.Handle @dx.op.createHandle(".data

/-- The `ResClassToType` table (`{RES_TYPE_SRV, RES_TYPE_UAV, RES_TYPE_CBV,
RES_TYPE_SAMPLER}`); indexing it past 3 is an out-of-bounds read (undefined
behaviour) in the source, embedded as `INVALID`, which matches no map entry. -/
def ResClassToType (i : Nat) : RES_TYPE :=
  match i with
  | 0 => .SRV
  | 1 => .UAV
  | 2 => .CBV
  | 3 => .SAMPLER
  | _ => .INVALID

/-- The `ReplaceBindPoint` lambda (DXCompiler.cpp:1543): parse the literal
index span `[IndexStartPos, IndexEndPos)`, find the first extended-map entry
matching (range id, resource class, containing source range) — the interval
bound `SrcBindPoint + ArraySize` is `Uint32` addition, hence the `% 2^32` —
and overwrite the span with `BindPoint + (SrcIndex - SrcBindPoint)` (again
`Uint32` arithmetic). -/
def ReplaceBindPoint (ext : TExtendedResourceMap) (ResClass RangeId : Nat)
    (DXIL : Str) (IndexStartPos IndexEndPos : Nat) : Except PatchEx Str :=
  let SrcIndexStr := substr DXIL IndexStartPos (IndexEndPos - IndexStartPos)
  match stoiU32 SrcIndexStr with
  | none => .error (.stdEx "stoi")
  | some SrcIndex =>
    let ResType := ResClassToType ResClass
    match ext.find? (fun e =>
        e.info.RecordId == RangeId && e.info.Ty == ResType &&
        e.info.SrcBindPoint ≤ SrcIndex &&
        SrcIndex < (e.info.SrcBindPoint + e.bind.ArraySize) % 4294967296) with
    | none => .error (.patchErr "Failed to find resource in ResourceMap")
    | some e =>
      let IndexOffset := SrcIndex - e.info.SrcBindPoint
      let NewIndexStr := u32Str ((e.bind.BindPoint + IndexOffset) % 4294967296)
      .ok (strReplace DXIL IndexStartPos (IndexEndPos - IndexStartPos) NewIndexStr)

/-- Dynamic-bind-point branch of the handle-creation scan
(DXCompiler.cpp:1677–1752): locate the defining `"<var> = add i32 "`
expression by a backward search from the call site, pick whichever of its two
operands is the integer literal, and patch that literal via
`ReplaceBindPoint` (the development-only usage-count check is a no-op in
release builds). -/
def PatchDynamicIndex (ext : TExtendedResourceMap) (ResClass RangeId : Nat)
    (DXIL : Str) (SrcIndexStr : Str) (IndexEndPos : Nat) : Except PatchEx Str :=
  let IndexDecl := SrcIndexStr ++ " = add i32 ".data
  match rfindUpTo DXIL IndexDecl IndexEndPos with
  | none => .error (.patchErr (mkHandleMsg "failed to find dynamic index declaration"))
  | some IndexDeclPos =>
    let pos := IndexDeclPos + IndexDecl.length
    if charAt DXIL pos = '%' then
      match NextArg DXIL pos with
      | (false, _) => .error (.patchErr (mkHandleMsg ""))
      | (true, pos) =>
        let pos := pos + 2
        if ¬ IsNumberSymbol (charAt DXIL pos) then
          .error (.patchErr (mkHandleMsg "second argument expected to be an integer constant"))
        else
          let ArgStart := pos
          let pos := skipDigits DXIL pos
          if ¬ (charAt DXIL pos = ',' ∨ charAt DXIL pos = '\n') then
            .error (.patchErr (mkHandleMsg "failed to parse second argument"))
          else
            ReplaceBindPoint ext ResClass RangeId DXIL ArgStart pos
    else
      let ArgStart := pos
      let pos := skipDigits DXIL pos
      if ¬ (charAt DXIL pos = ',' ∨ charAt DXIL pos = '\n') then
        .error (.patchErr (mkHandleMsg "failed to parse second argument"))
      else
        ReplaceBindPoint ext ResClass RangeId DXIL ArgStart pos

/-- Outcome of one iteration of a scanning loop of a patch pass. -/
inductive HandleStep
  | done (DXIL : Str)
  | next (DXIL : Str) (pos : Nat)
  | fail (e : PatchEx)
deriving DecidableEq, Repr

/-- One iteration of the `createHandle` scan (the body of the `for` loop at
DXCompiler.cpp:1584, including its `pos < DXIL.size()` head condition).  The
extended map is only read by this pass. -/
def patchHandleStep (ext : TExtendedResourceMap) (DXIL : Str) (pos0 : Nat) : HandleStep :=
  if DXIL.length ≤ pos0 then .done DXIL else
  match strFind DXIL CallHandlePattern pos0 with
  | none => .done DXIL
  | some callHandlePos =>
    let pos := callHandlePos + CallHandlePattern.length
    if ¬ matchAt DXIL pos i32Tok then
      .fail (.patchErr (mkHandleMsg "Opcode record is not found")) else
    let pos := pos + i32Tok.length
    match NextArg DXIL pos with
    | (false, _) => .fail (.patchErr (mkHandleMsg "failed to find end of the Opcode record data"))
    | (true, pos) =>
    if ¬ (pos + 1 < DXIL.length ∧ charAt DXIL pos = ',' ∧ charAt DXIL (pos + 1) = ' ') then
      .fail (.patchErr (mkHandleMsg "Resource Class record is not found")) else
    let pos := pos + 2
    if ¬ matchAt DXIL pos i8Tok then
      .fail (.patchErr (mkHandleMsg "Resource Class record data is not found")) else
    let pos := pos + i8Tok.length
    let ResClassStartPos := pos
    match NextArg DXIL pos with
    | (false, _) => .fail (.patchErr (mkHandleMsg "failed to find end of the Resource class record data"))
    | (true, pos) =>
    let ResClass := toU32 (atoiAt DXIL ResClassStartPos)
    if ¬ (pos + 1 < DXIL.length ∧ charAt DXIL pos = ',' ∧ charAt DXIL (pos + 1) = ' ') then
      .fail (.patchErr (mkHandleMsg "Range ID record is not found")) else
    let pos := pos + 2
    if ¬ matchAt DXIL pos i32Tok then
      .fail (.patchErr (mkHandleMsg "Range ID record data is not found")) else
    let pos := pos + i32Tok.length
    let RangeIdStartPos := pos
    match NextArg DXIL pos with
    | (false, _) => .fail (.patchErr (mkHandleMsg "failed to find end of the Range ID record data"))
    | (true, pos) =>
    let RangeId := toU32 (atoiAt DXIL RangeIdStartPos)
    if ¬ (pos + 1 < DXIL.length ∧ charAt DXIL pos = ',' ∧ charAt DXIL (pos + 1) = ' ') then
      .fail (.patchErr (mkHandleMsg "Index record is not found")) else
    let pos := pos + 2
    if ¬ matchAt DXIL pos i32Tok then
      .fail (.patchErr (mkHandleMsg "Index record data is not found")) else
    let pos := pos + i32Tok.length
    let IndexStartPos := pos
    match NextArg DXIL pos with
    | (false, _) => .fail (.patchErr (mkHandleMsg "failed to find the end of the Index record data"))
    | (true, pos) =>
    let IndexEndPos := pos
    let SrcIndexStr := substr DXIL IndexStartPos (IndexEndPos - IndexStartPos)
    match SrcIndexStr with
    | [] => .fail (.patchErr (mkHandleMsg "Bind point index must not be empty"))
    | c :: _ =>
      if c = '%' then
        match PatchDynamicIndex ext ResClass RangeId DXIL SrcIndexStr IndexEndPos with
        | .error e => .fail e
        | .ok DXIL => .next DXIL IndexEndPos
      else
        match ReplaceBindPoint ext ResClass RangeId DXIL IndexStartPos IndexEndPos with
        | .error e => .fail e
        | .ok DXIL => .next DXIL IndexEndPos

/-- Result of running a whole patch pass (or the pass pipeline): the scanning
loops are iterated on explicit fuel, `fuelOut` marking fuel exhaustion. -/
inductive PatchOut
  | ok (DXIL : Str) (ext : TExtendedResourceMap)
  | err (e : PatchEx)
  | fuelOut
deriving DecidableEq, Repr

/-- Fuel-indexed iteration of the `createHandle` scanning loop. -/
def patchHandleLoop (ext : TExtendedResourceMap) : Nat → Str → Nat → PatchOut
  | 0, _, _ => .fuelOut
  | fuel + 1, DXIL, pos =>
    match patchHandleStep ext DXIL pos with
    | .done d => .ok d ext
    | .fail e => .err e
    | .next d p => patchHandleLoop ext fuel d p

/-- `PatchResourceHandle`: run the `createHandle` scan from position 0. -/
def PatchResourceHandle (fuel : Nat) (ext : TExtendedResourceMap) (DXIL : Str) : PatchOut :=
  patchHandleLoop ext fuel DXIL 0

/-! ## Generic declaration patcher (`PatchResourceDeclaration`, DXCompiler.cpp:1194) -/

/-- Type-name constants of `PatchResourceDeclaration`. -/
def SamplerPart : Str := "SamplerState".data

/-- Constant `TexturePart`. -/
def TexturePart : Str := "Texture".data

/-- Constant `RWTexturePart`. -/
def RWTexturePart : Str := "RWTexture".data

/-- Constant `AccelStructPart`. -/
def AccelStructPart : Str := "RaytracingAccelerationStructure".data

/-- Constant `StructBufferPart`. -/
def StructBufferPart : Str := "StructuredBuffer<".data

/-- Constant `RWStructBufferPart`. -/
def RWStructBufferPart : Str := "RWStructuredBuffer<".data

/-- Constant `ByteAddrBufPart`. -/
def ByteAddrBufPart : Str := "ByteAddressBuffer".data

/-- Constant `RWByteAddrBufPart`. -/
def RWByteAddrBufPart : Str := "RWByteAddressBuffer".data

/-- Constant `TexBufferPart`. -/
def TexBufferPart : Str := "Buffer<".data

/-- Constant `RWFmtBufferPart`. -/
def RWFmtBufferPart : Str := "RWBuffer<".data

/-- Constant `DxAlignmentLegacyPart`. -/
def DxAlignmentLegacyPart : Str := "dx.alignment.legacy.".data

/-- Constant `StructPart`. -/
def StructPart : Str := "struct.".data

/-- Constant `ClassPart`. -/
def ClassPart : Str := "class.".data

/-- Structural core of the array-prefix skip: `k` is the remaining distance
to the bound (`limit - pos`). -/
def skipArrayAux (DXIL : Str) : Nat → Nat → Nat
  | 0, pos => pos
  | k + 1, pos =>
    let c := charAt DXIL pos
    if IsNumberSymbol c || c = ' ' || c = 'x' then skipArrayAux DXIL k (pos + 1)
    else pos

/-- Skip of the optional fixed-size-array prefix `[N x ` (DXCompiler.cpp:1353),
bounded by the start of the name declaration. -/
def skipArrayDecl (DXIL : Str) (limit : Nat) (pos : Nat) : Nat :=
  skipArrayAux DXIL (limit - pos) pos

/-- Constant-buffer fallback classification (DXCompiler.cpp:1428): scan the
extended map for a CBV entry whose name is a prefix of the type-name text,
followed by a non-word character (resource names are ASCII identifiers, so
`String.length` agrees with `strlen`). -/
def cbvFallback (ext : TExtendedResourceMap) (DXIL : Str) (pos : Nat) : Bool :=
  ext.any (fun e =>
    e.info.Ty == RES_TYPE.CBV &&
    matchAt DXIL pos e.name.data &&
    ¬ IsWordSymbol (charAt DXIL (pos + e.name.length)))

/-- The type-classification chain of `PatchResourceDeclaration`
(DXCompiler.cpp:1401–1450): the order of the comparisons is the order of the
source's `if`/`else if` chain; the constant-buffer fallback is only attempted
when no `STRING_PART`/`STRUCT_PART`/`CLASS_PART` prefix was consumed. -/
def classifyResType (ext : TExtendedResourceMap) (DXIL : Str) (pos : Nat)
    (stringPart structPart classPart : Bool) : RES_TYPE :=
  if matchAt DXIL pos SamplerPart then .SAMPLER
  else if matchAt DXIL pos TexturePart && IsTextureSuffix DXIL (pos + TexturePart.length) then .SRV
  else if matchAt DXIL pos StructBufferPart then .SRV
  else if matchAt DXIL pos ByteAddrBufPart then .SRV
  else if matchAt DXIL pos TexBufferPart then .SRV
  else if matchAt DXIL pos AccelStructPart then .SRV
  else if matchAt DXIL pos RWTexturePart && IsTextureSuffix DXIL (pos + RWTexturePart.length) then .UAV
  else if matchAt DXIL pos RWStructBufferPart then .UAV
  else if matchAt DXIL pos RWByteAddrBufPart then .UAV
  else if matchAt DXIL pos RWFmtBufferPart then .UAV
  else if ¬ stringPart && ¬ structPart && ¬ classPart then
    (if cbvFallback ext DXIL pos then .CBV else .INVALID)
  else .INVALID

/-- Set the discovered record id of the extended-map entry with identity
`idx` (the write `pExt->RecordId = RecordId` through the `unordered_map`
reference). -/
def updateRecordId (ext : TExtendedResourceMap) (idx RecordId : Nat) : TExtendedResourceMap :=
  ext.map (fun e =>
    if e.idx = idx then { e with info := { e.info with RecordId := RecordId } } else e)

/-- Outcome of one iteration of the declaration scan. -/
inductive DeclStep
  | done (DXIL : Str) (ext : TExtendedResourceMap)
  | next (DXIL : Str) (pos : Nat) (ext : TExtendedResourceMap)
  | fail (e : PatchEx)
deriving DecidableEq, Repr

/-- One iteration of the declaration scan (the body of the `for` loop at
DXCompiler.cpp:1291, including its `pos < DXIL.size()` head condition).
`VERIFY_EXPR` development checks are no-ops.  The final name insertion
(DXCompiler.cpp:1515) reuses `BeginOfResName`, and the loop resumes at the
cursor value produced by the second `ReplaceRecord` call. -/
def patchDeclStep (DXIL : Str) (pos0 : Nat) (ext : TExtendedResourceMap) : DeclStep :=
  if DXIL.length ≤ pos0 then .done DXIL ext else
  match strFind DXIL ResNameDecl pos0 with
  | none => .done DXIL ext
  | some f =>
    let EndOfResTypeRecord := f
    let pos := f + ResNameDecl.length
    let BeginOfResName := pos
    match ReadResName DXIL pos with
    | (none, pos) => .next DXIL pos ext
    | (some ResName, pos) =>
      let BindingRecordStart := pos + 1
      match rfindUpTo DXIL ResourceRecStart EndOfResTypeRecord with
      | none => .fail (.patchErr (mkDeclMsg "failed to find resource record start block"))
      | some r =>
        let pos := r + ResourceRecStart.length
        if ¬ matchAt DXIL pos i32Tok then .next DXIL BindingRecordStart ext else
        let pos := pos + i32Tok.length
        let RecordIdStartPos := pos
        match strFindFirstNotOf DXIL NumberSymbols pos with
        | none => .fail (.patchErr (mkDeclMsg "failed to parse Record ID record data"))
        | some pos =>
          let RecordId := toU32 (atoiAt DXIL RecordIdStartPos)
          if ¬ (pos + 1 < DXIL.length ∧ charAt DXIL pos = ',' ∧ charAt DXIL (pos + 1) = ' ') then
            .fail (.patchErr (mkDeclMsg "failed to find the end of the Record ID record data"))
          else
          let pos := pos + 2
          let pos := if charAt DXIL pos = '[' then skipArrayDecl DXIL EndOfResTypeRecord (pos + 1) else pos
          if charAt DXIL pos ≠ '%' then .next DXIL BindingRecordStart ext else
          let pos := pos + 1
          let stringPart := charAt DXIL pos = '"'
          let pos := if stringPart then pos + 1 else pos
          let alignPart := matchAt DXIL pos DxAlignmentLegacyPart
          let pos := if alignPart then pos + DxAlignmentLegacyPart.length else pos
          let structPart := matchAt DXIL pos StructPart
          let pos := if structPart then pos + StructPart.length else pos
          let classPart := matchAt DXIL pos ClassPart
          let pos := if classPart then pos + ClassPart.length else pos
          let ResType := classifyResType ext DXIL pos stringPart structPart classPart
          if ResType = RES_TYPE.INVALID then .next DXIL BindingRecordStart ext else
          let pos := BindingRecordStart
          match ReadRecord DXIL pos with
          | .error e => .fail e
          | .ok (none, pos) => .next DXIL pos ext
          | .ok (some Space, pos) =>
            match ReadRecord DXIL pos with
            | .error e => .fail e
            | .ok (none, pos) => .next DXIL pos ext
            | .ok (some BindPoint, _pos) =>
              match ext.find? (fun e =>
                  e.info.SrcBindPoint == BindPoint && e.info.SrcSpace == Space &&
                  e.info.Ty == ResType) with
              | none => .fail (.patchErr (mkDeclMsg "failed to find resource in ResourceMap"))
              | some en =>
                let ext := updateRecordId ext en.idx RecordId
                let pos := BindingRecordStart
                match ReplaceRecord DXIL pos (u32Str en.bind.Space) en.name "space" en.info.SrcSpace with
                | .error e => .fail e
                | .ok (DXIL, pos) =>
                  match ReplaceRecord DXIL pos (u32Str en.bind.BindPoint) en.name "register" en.info.SrcBindPoint with
                  | .error e => .fail e
                  | .ok (DXIL, pos) =>
                    if ResName.isEmpty then
                      .next (strInsert DXIL BeginOfResName en.name.data) pos ext
                    else
                      .next DXIL pos ext

/-- Fuel-indexed iteration of the declaration scanning loop. -/
def patchDeclLoop : Nat → Str → Nat → TExtendedResourceMap → PatchOut
  | 0, _, _, _ => .fuelOut
  | fuel + 1, DXIL, pos, ext =>
    match patchDeclStep DXIL pos ext with
    | .done d e => .ok d e
    | .fail e => .err e
    | .next d p e => patchDeclLoop fuel d p e

/-- `PatchResourceDeclaration`: run the declaration scan from position 0. -/
def PatchResourceDeclaration (fuel : Nat) (ext : TExtendedResourceMap) (DXIL : Str) : PatchOut :=
  patchDeclLoop fuel DXIL 0 ext

/-! ## Ray-tracing declaration patcher (`PatchResourceDeclarationRT`,
DXCompiler.cpp:1111) and the pass pipeline (`PatchDXIL`, DXCompiler.cpp:1030) -/

/-- Patch one binding-map entry in the ray-tracing declaration pass: look up
the resource's quoted debug name (skip the entry when absent), walk back to
the record opening, capture the record id, then rewrite the space and binding
fields.  `ExtResMap[&ResPair]` is `unordered_map::operator[]`, which inserts a
default-initialized `ResourceExtendedInfo` when the entry is absent; the
expected previous values are read from that (possibly default) entry. -/
def patchRTEntry (DXIL : Str) (ext : TExtendedResourceMap) (idx : Nat)
    (Name : String) (bind : BindInfo) : Except PatchEx (Str × TExtendedResourceMap) :=
  let ext := if (ext.find? (fun e => e.idx == idx)).isSome then ext
             else ext ++ [⟨idx, Name, bind, {}⟩]
  let Ext := ((ext.find? (fun e => e.idx == idx)).getD ⟨idx, Name, bind, {}⟩).info
  let DxilName : Str := "!\"".data ++ Name.data ++ "\"".data
  match strFind DXIL DxilName 0 with
  | none => .ok (DXIL, ext)
  | some p =>
    let EndOfResTypeRecord := p
    match rfindUpTo DXIL ResourceRecStart EndOfResTypeRecord with
    | none => .error (.patchErr (mkPatchMsg Name ""))
    | some r =>
      let pos := r + ResourceRecStart.length
      if ¬ matchAt DXIL pos i32Tok then .error (.patchErr (mkPatchMsg Name "")) else
      let pos := pos + i32Tok.length
      let RecordIdStartPos := pos
      match strFindFirstNotOf DXIL NumberSymbols pos with
      | none => .error (.patchErr (mkPatchMsg Name ""))
      | some _pos =>
        let RecordId := toU32 (atoiAt DXIL RecordIdStartPos)
        let ext := updateRecordId ext idx RecordId
        let pos := EndOfResTypeRecord + DxilName.length
        match ReplaceRecord DXIL pos (u32Str bind.Space) Name "space" Ext.SrcSpace with
        | .error e => .error e
        | .ok (DXIL, pos) =>
          match ReplaceRecord DXIL pos (u32Str bind.BindPoint) Name "binding" Ext.SrcBindPoint with
          | .error e => .error e
          | .ok (DXIL, _pos) => .ok (DXIL, ext)

/-- `PatchResourceDeclarationRT`: fold `patchRTEntry` over the binding map
(the list order standing for the `unordered_map` iteration order), `idx`
numbering the entries. -/
def PatchResourceDeclarationRT :
    TResourceBindingMap → Nat → Str → TExtendedResourceMap →
    Except PatchEx (Str × TExtendedResourceMap)
  | [], _, DXIL, ext => .ok (DXIL, ext)
  | (Name, bind) :: rest, idx, DXIL, ext =>
    match patchRTEntry DXIL ext idx Name bind with
    | .error e => .error e
    | .ok (DXIL, ext) => PatchResourceDeclarationRT rest (idx + 1) DXIL ext

/-- `SHADER_TYPE` values the remap pipeline distinguishes (GraphicsTypes.h;
only membership in `SHADER_TYPE_ALL_RAY_TRACING` matters here). -/
inductive SHADER_TYPE
  | UNKNOWN
  | VERTEX
  | PIXEL
  | GEOMETRY
  | HULL
  | DOMAIN
  | COMPUTE
  | AMPLIFICATION
  | MESH
  | RAY_GEN
  | RAY_MISS
  | RAY_CLOSEST_HIT
  | RAY_ANY_HIT
  | RAY_INTERSECTION
  | CALLABLE
deriving DecidableEq, Repr

/-- Membership in the `SHADER_TYPE_ALL_RAY_TRACING` mask: the six ray-tracing
stages. -/
def isRayTracingType : SHADER_TYPE → Bool
  | .RAY_GEN | .RAY_MISS | .RAY_CLOSEST_HIT | .RAY_ANY_HIT | .RAY_INTERSECTION | .CALLABLE => true
  | _ => false

/-- `PatchDXIL` (DXCompiler.cpp:1030): ray-tracing shaders get only the RT
declaration pass; all other shaders get the generic declaration pass followed
by the handle-creation pass.  The `try`/`catch` surfaces any `PatchEx` as the
`err` outcome (the caller maps it to `false`). -/
def PatchDXIL (rm : TResourceBindingMap) (ext : TExtendedResourceMap)
    (ShaderType : SHADER_TYPE) (DXIL : Str) (fuel : Nat) : PatchOut :=
  if isRayTracingType ShaderType then
    match PatchResourceDeclarationRT rm 0 DXIL ext with
    | .error e => .err e
    | .ok (d, e) => .ok d e
  else
    match PatchResourceDeclaration fuel ext DXIL with
    | .ok d e => PatchResourceHandle fuel e d
    | x => x

/-! ## Extended-map builder and remap pipeline (`RemapResourceBindings`,
DXCompiler.cpp:810) -/

/-- `D3D_SHADER_INPUT_TYPE` values the builder's `switch` names; `other`
stands for every remaining enum value (handled by the `default` branch). -/
inductive D3D_SIT
  | cbuffer
  | tbuffer
  | texture
  | sampler
  | structured
  | byteaddress
  | rtaccelerationstructure
  | uav_rwtyped
  | uav_rwstructured
  | uav_rwbyteaddress
  | uav_append_structured
  | uav_consume_structured
  | uav_rwstructured_with_counter
  | uav_feedbacktexture
  | other
deriving DecidableEq, Repr

/-- The `switch (ResDesc.Type)` of the builder loop (DXCompiler.cpp:911):
`none` is the `default` branch (`LOG_ERROR("Unknown shader resource type");
return false`). -/
def sitToResType : D3D_SIT → Option RES_TYPE
  | .cbuffer => some .CBV
  | .sampler => some .SAMPLER
  | .tbuffer | .texture | .structured | .byteaddress | .rtaccelerationstructure => some .SRV
  | .uav_rwtyped | .uav_rwstructured | .uav_rwbyteaddress | .uav_append_structured
  | .uav_consume_structured | .uav_rwstructured_with_counter | .uav_feedbacktexture => some .UAV
  | .other => none

/-- The fields of `D3D12_SHADER_INPUT_BIND_DESC` that the builder reads (the
source field `Type` is spelled `Ty` because `Type` is a Lean keyword). -/
structure ResDesc where
  BindPoint : Nat
  Space : Nat
  Ty : D3D_SIT
  BindCount : Nat
deriving DecidableEq, Repr

/-- The builder loop of `RemapResourceBindings` (DXCompiler.cpp:897–972):
for each binding-map entry, query reflection by name.  A failed lookup
(`GetResourceBindingDescByName != S_OK`) skips the entry; an unrecognized
input type aborts the remap (`none`); otherwise an extended-map entry is
created with the reflected bind point, space and coarse type.  The
development-only type-consistency and array-size checks are no-ops. -/
def buildExtResourceMap (lookup : String → Option ResDesc) :
    TResourceBindingMap → Nat → Option TExtendedResourceMap
  | [], _ => some []
  | (name, bind) :: rest, idx =>
    match lookup name with
    | none => buildExtResourceMap lookup rest (idx + 1)
    | some desc =>
      match sitToResType desc.Ty with
      | none => none
      | some t =>
        (buildExtResourceMap lookup rest (idx + 1)).map
          (⟨idx, name, bind, ⟨desc.BindPoint, desc.Space, 4294967295, t⟩⟩ :: ·)

/-- The `D3D12_SHVER_GET_TYPE` switch of `RemapResourceBindings`
(DXCompiler.cpp:872): numeric codes are the `D3D12_SHADER_VERSION_TYPE`
values; unknown codes leave `SHADER_TYPE_UNKNOWN` (the `UNEXPECTED` macro is
a no-op in release builds). -/
def decodeShaderType : Nat → SHADER_TYPE
  | 0 => .PIXEL
  | 1 => .VERTEX
  | 2 => .GEOMETRY
  | 3 => .HULL
  | 4 => .DOMAIN
  | 5 => .COMPUTE
  | 7 => .RAY_GEN
  | 8 => .RAY_INTERSECTION
  | 9 => .RAY_ANY_HIT
  | 10 => .RAY_CLOSEST_HIT
  | 11 => .RAY_MISS
  | 12 => .CALLABLE
  | 13 => .MESH
  | 14 => .AMPLIFICATION
  | _ => .UNKNOWN

/-- Outcomes of the external DXC backend calls made by one remap invocation
(creation of COM objects, disassembly, reflection, assembly, validation).
Blobs are abstract tokens (`Nat`).  `validateCall` yields the validation
status, `valGetResult` the validated blob (`some none`: a null result blob,
in which case the compiled blob is returned). -/
structure DxcBackend where
  createInstanceOk : Bool
  libraryOk : Bool
  assemblerOk : Bool
  compilerOk : Bool
  disasm : Option Str
  reflection : Option (Nat × (String → Option ResDesc))
  createBlobOk : Bool
  assemble : Str → Option Nat
  assembleGetResultOk : Bool
  validatorOk : Bool
  validateCall : Nat → Option Bool
  valGetResult : Nat → Option (Option Nat)

/-- `ValidateAndSign` (DXCompiler.cpp:386): returns whether validation
succeeded and the blob written to `*ppBlobOut` (`none` = never assigned). -/
def ValidateAndSign (o : DxcBackend) (compiled : Nat) : Bool × Option Nat :=
  if ¬ o.validatorOk then (false, none) else
  match o.validateCall compiled with
  | none => (false, none)
  | some status =>
    if status then
      match o.valGetResult compiled with
      | none => (false, none)
      | some validated => (true, some (validated.getD compiled))
    else (false, none)

/-- The patch outcome embedded in the remap pipeline: `none` when an earlier
stage failed before `PatchDXIL` was reached. -/
def remapPatchResult (o : DxcBackend) (rm : TResourceBindingMap) (fuel : Nat) :
    Option PatchOut :=
  if ¬ (o.createInstanceOk ∧ o.libraryOk ∧ o.assemblerOk ∧ o.compilerOk) then none else
  match o.disasm with
  | none => none
  | some disasmText =>
    match o.reflection with
    | none => none
    | some (verCode, lookup) =>
      match buildExtResourceMap lookup rm 0 with
      | none => none
      | some ext => some (PatchDXIL rm ext (decodeShaderType verCode) disasmText fuel)

/-- `RemapResourceBindings` (DXCompiler.cpp:810): returns the function result
and the blob written to `*ppDstByteCode` (`none` = never assigned).  A
`fuelOut` patch outcome is a modelling artifact and is reported as failure. -/
def RemapResourceBindings (o : DxcBackend) (rm : TResourceBindingMap) (fuel : Nat) :
    Bool × Option Nat :=
  match remapPatchResult o rm fuel with
  | none => (false, none)
  | some (.err _) => (false, none)
  | some .fuelOut => (false, none)
  | some (.ok dxil2 _ext2) =>
    if ¬ o.createBlobOk then (false, none) else
    match o.assemble dxil2 with
    | none => (false, none)
    | some compiled =>
      if ¬ o.assembleGetResultOk then (false, none) else
      ValidateAndSign o compiled

/-- Identifiers for the stages of one remap invocation. -/
inductive PassId
  | buildMap
  | declRT
  | decl
  | handle
deriving DecidableEq, Repr

/-- The stage order of one remap invocation, as dispatched by
`RemapResourceBindings` and `PatchDXIL`: the extended-map builder always runs
first; ray-tracing shaders then get only `PatchResourceDeclarationRT`, all
other shaders get `PatchResourceDeclaration` followed by
`PatchResourceHandle`. -/
def RemapPassList (st : SHADER_TYPE) : List PassId :=
  PassId.buildMap ::
    (if isRayTracingType st then [PassId.declRT] else [PassId.decl, PassId.handle])

/-! ## Container prober (`IsDXILBytecode`, DXCompiler.cpp:1763)

The byte buffer is embedded as `List Nat` (one entry per byte).  The layout
constants come from dxc's `DxilContainer.h`: `DxilContainerHeader` is 32 bytes
(`HeaderFourCC` at 0, a 16-byte hash at 4, `Version.Major : uint16` at 20,
`Version.Minor` at 22, `ContainerSizeInBytes` at 24, `PartCount` at 28);
`DxilPartHeader` is 8 bytes with `PartFourCC` at offset 0.  Multi-byte fields
are little-endian.  Every read of the source is guarded by a bounds check
before it happens; the embedding makes each read an `Option` so that the
guard discipline is itself a provable statement (the probe never returns
`none`). -/

/-- Checked little-endian 16-bit read. -/
def readU16 (b : List Nat) (i : Nat) : Option Nat := do
  let x0 ← b.get? i
  let x1 ← b.get? (i + 1)
  pure (x0 + 256 * x1)

/-- Checked little-endian 32-bit read. -/
def readU32 (b : List Nat) (i : Nat) : Option Nat := do
  let x0 ← b.get? i
  let x1 ← b.get? (i + 1)
  let x2 ← b.get? (i + 2)
  let x3 ← b.get? (i + 3)
  pure (x0 + 256 * x1 + 65536 * x2 + 16777216 * x3)

/-- `hlsl::DFCC_Container` (`'DXBC'`). -/
def DFCC_Container : Nat := 68 + 256 * 88 + 65536 * 66 + 16777216 * 67

/-- `hlsl::DFCC_DXIL` (`'DXIL'`). -/
def DFCC_DXIL : Nat := 68 + 256 * 88 + 65536 * 73 + 16777216 * 76

/-- `hlsl::DxilContainerVersionMajor`. -/
def DxilContainerVersionMajor : Nat := 1

/-- Part-table scan of `IsDXILBytecode` (DXCompiler.cpp:1801): for each of the
remaining `k` parts (`i` the current part index), check that the referenced
part header is in bounds (else `false`), and return `true` at the first part
whose tag is `DFCC_DXIL`. -/
def findDXILPart (b : List Nat) : Nat → Nat → Option Bool
  | 0, _ => some false
  | k + 1, i => do
    let off ← readU32 b (32 + 4 * i)
    if off + 8 ≤ b.length then do
      let tag ← readU32 b off
      if tag = DFCC_DXIL then pure true else findDXILPart b k (i + 1)
    else
      pure false

/-- `IsDXILBytecode`: the boolean probe result paired with the number of
warnings logged (`LOG_WARNING_MESSAGE` fires exactly once, on a major-version
mismatch). -/
def IsDXILBytecode (b : List Nat) : Option (Bool × Nat) :=
  if b.length < 32 then some (false, 0) else do
  let fourcc ← readU32 b 0
  if fourcc ≠ DFCC_Container then pure (false, 0) else do
  let major ← readU16 b 20
  if major ≠ DxilContainerVersionMajor then pure (false, 1) else do
  let partCount ← readU32 b 28
  if b.length < 32 + 4 * partCount then pure (false, 0) else do
  let r ← findDXILPart b partCount 0
  pure (r, 0)

/-! ## Probe lemmas (claim C5) -/

theorem get?_some_of_lt {b : List Nat} {i : Nat} (h : i < b.length) :
    ∃ v, b[i]? = some v := by
  cases hv : b[i]? with
  | none => rw [List.getElem?_eq_none_iff] at hv; omega
  | some v => exact ⟨v, rfl⟩

theorem readU32_eq_some {b : List Nat} {i : Nat} (h : i + 4 ≤ b.length) :
    ∃ v, readU32 b i = some v := by
  obtain ⟨v0, h0⟩ := get?_some_of_lt (b := b) (i := i) (by omega)
  obtain ⟨v1, h1⟩ := get?_some_of_lt (b := b) (i := i + 1) (by omega)
  obtain ⟨v2, h2⟩ := get?_some_of_lt (b := b) (i := i + 2) (by omega)
  obtain ⟨v3, h3⟩ := get?_some_of_lt (b := b) (i := i + 3) (by omega)
  exact ⟨v0 + 256 * v1 + 65536 * v2 + 16777216 * v3, by simp [readU32, h0, h1, h2, h3]⟩

theorem readU16_eq_some {b : List Nat} {i : Nat} (h : i + 2 ≤ b.length) :
    ∃ v, readU16 b i = some v := by
  obtain ⟨v0, h0⟩ := get?_some_of_lt (b := b) (i := i) (by omega)
  obtain ⟨v1, h1⟩ := get?_some_of_lt (b := b) (i := i + 1) (by omega)
  exact ⟨v0 + 256 * v1, by simp [readU16, h0, h1]⟩

theorem findDXILPart_isSome {b : List Nat} :
    ∀ k i, 32 + 4 * (i + k) ≤ b.length → (findDXILPart b k i).isSome := by
  intro k
  induction k with
  | zero => intro i _h; simp [findDXILPart]
  | succ k ih =>
    intro i h
    obtain ⟨off, hoff⟩ := readU32_eq_some (b := b) (i := 32 + 4 * i) (by omega)
    by_cases hb : off + 8 ≤ b.length
    · obtain ⟨tag, htag⟩ := readU32_eq_some (b := b) (i := off) (by omega)
      by_cases ht : tag = DFCC_DXIL
      · simp [findDXILPart, hoff, hb, htag, ht]
      · have hrec := ih (i + 1) (by omega)
        simpa [findDXILPart, hoff, hb, htag, ht] using hrec
    · simp [findDXILPart, hoff, hb]

theorem findDXILPart_true_iff {b : List Nat} :
    ∀ k i, 32 + 4 * (i + k) ≤ b.length →
    (findDXILPart b k i = some true ↔
      ∃ m, m < k ∧
        (∀ j, j ≤ m → ∃ off, readU32 b (32 + 4 * (i + j)) = some off ∧ off + 8 ≤ b.length) ∧
        (∃ off, readU32 b (32 + 4 * (i + m)) = some off ∧ readU32 b off = some DFCC_DXIL)) := by
  intro k
  induction k with
  | zero =>
    intro i _h
    simp [findDXILPart]
  | succ k ih =>
    intro i h
    obtain ⟨off, hoff⟩ := readU32_eq_some (b := b) (i := 32 + 4 * i) (by omega)
    by_cases hb : off + 8 ≤ b.length
    · obtain ⟨tag, htag⟩ := readU32_eq_some (b := b) (i := off) (by omega)
      by_cases ht : tag = DFCC_DXIL
      · subst ht
        constructor
        · intro _
          exact ⟨0, by omega, fun j hj => by
              interval_cases j
              exact ⟨off, by simpa using hoff, hb⟩,
            ⟨off, by simpa using hoff, htag⟩⟩
        · intro _
          simp [findDXILPart, hoff, hb, htag]
      · have hrec := ih (i + 1) (by omega)
        have hstep : findDXILPart b (k + 1) i = findDXILPart b k (i + 1) := by
          simp [findDXILPart, hoff, hb, htag, ht]
        rw [hstep, hrec]
        constructor
        · rintro ⟨m, hm, hall, hdx⟩
          refine ⟨m + 1, by omega, fun j hj => ?_, ?_⟩
          · cases j with
            | zero => exact ⟨off, by simpa using hoff, hb⟩
            | succ j =>
              have := hall j (by omega)
              simpa [Nat.add_assoc, Nat.add_comm, Nat.add_left_comm] using this
          · obtain ⟨o, ho, hd⟩ := hdx
            exact ⟨o, by simpa [Nat.add_assoc, Nat.add_comm, Nat.add_left_comm] using ho, hd⟩
        · rintro ⟨m, hm, hall, hdx⟩
          cases m with
          | zero =>
            obtain ⟨o, ho, hd⟩ := hdx
            have : o = off := by
              have := ho
              simp only [Nat.add_zero] at this
              rw [hoff] at this
              exact (Option.some_inj.mp this).symm
            subst this
            rw [htag] at hd
            exact absurd (Option.some_inj.mp hd) ht
          | succ m =>
            refine ⟨m, by omega, fun j hj => ?_, ?_⟩
            · have := hall (j + 1) (by omega)
              simpa [Nat.add_assoc, Nat.add_comm, Nat.add_left_comm] using this
            · obtain ⟨o, ho, hd⟩ := hdx
              exact ⟨o, by simpa [Nat.add_assoc, Nat.add_comm, Nat.add_left_comm] using ho, hd⟩
    · have hstep : findDXILPart b (k + 1) i = some false := by
        simp [findDXILPart, hoff, hb]
      rw [hstep]
      constructor
      · intro hcontra; cases hcontra
      · rintro ⟨m, hm, hall, _⟩
        obtain ⟨o, ho, hob⟩ := hall 0 (by omega)
        have : o = off := by
          simp only [Nat.add_zero] at ho
          rw [hoff] at ho
          exact (Option.some_inj.mp ho).symm
        subst this
        exact absurd hob hb

/-- Modelled from the spec (claim C5 wording): the probe's header checks pass
(buffer holds the fixed header, magic tag and major version match, and the
part-offset table fits). -/
def ProbeClaimHeaderOk (b : List Nat) : Prop :=
  32 ≤ b.length ∧ readU32 b 0 = some DFCC_Container ∧
  readU16 b 20 = some DxilContainerVersionMajor ∧
  ∃ pc, readU32 b 28 = some pc ∧ 32 + 4 * pc ≤ b.length

/-- Modelled from the spec (claim C5 wording): some in-bounds part's kind tag
equals the IR-part kind. -/
def ProbeClaimInBoundsDXILPart (b : List Nat) : Prop :=
  ∃ pc i off, readU32 b 28 = some pc ∧ i < pc ∧
    readU32 b (32 + 4 * i) = some off ∧ off + 8 ≤ b.length ∧
    readU32 b off = some DFCC_DXIL

/-- Well-formed container whose part 0 header is out of bounds while part 1 is
in bounds and DXIL-tagged (48 bytes: header with part count 2, offsets 1000
and 40, part header `DXIL` at 40). -/
def probeCexBuf : List Nat :=
  [68, 88, 66, 67] ++ List.replicate 16 0 ++ [1, 0, 0, 0] ++ [56, 0, 0, 0] ++ [2, 0, 0, 0] ++
  [232, 3, 0, 0] ++ [40, 0, 0, 0] ++ [68, 88, 73, 76] ++ [0, 0, 0, 0]

/-- Well-formed 32-byte header with major version 2. -/
def probeWrongMajorBuf : List Nat :=
  [68, 88, 66, 67] ++ List.replicate 16 0 ++ [2, 0, 0, 0] ++ [32, 0, 0, 0] ++ [0, 0, 0, 0]

/-- Well-formed 44-byte container with one in-bounds DXIL part at offset 36. -/
def probeGoodBuf : List Nat :=
  [68, 88, 66, 67] ++ List.replicate 16 0 ++ [1, 0, 0, 0] ++ [44, 0, 0, 0] ++ [1, 0, 0, 0] ++
  [36, 0, 0, 0] ++ [68, 88, 73, 76] ++ [0, 0, 0, 0]

/-- Claim C5, counterexample: the claim's characterization "returns true
exactly when the header checks pass and some in-bounds part's kind tag equals
the target IR-part kind" fails on `probeCexBuf`: its header checks pass and
its part 1 is in bounds and DXIL-tagged, yet the probe returns false (the
scan stops at part 0, whose header is out of bounds). -/
theorem C5_probe_counterexample :
    ProbeClaimHeaderOk probeCexBuf ∧ ProbeClaimInBoundsDXILPart probeCexBuf ∧
    IsDXILBytecode probeCexBuf = some (false, 0) := by
  refine ⟨⟨by decide, by decide, by decide, 2, by decide, by decide⟩,
    ⟨2, 1, 40, by decide, by decide, by decide, by decide, by decide⟩, by decide⟩

/-- Claim C5 (amended): the container probe always returns a result (every
read is bounds-checked before it happens), returns false with no warning for
a buffer too small for the header, a wrong magic tag, or a part-offset table
that does not fit, returns false with exactly one warning for a wrong major
version, and returns true exactly when the header checks pass and the
sequential part scan reaches a DXIL-tagged part with every part header up to
and including it in bounds. -/
theorem C5_probe_behavior (b : List Nat) :
    (IsDXILBytecode b).isSome ∧
    (b.length < 32 → IsDXILBytecode b = some (false, 0)) ∧
    (∀ four, 32 ≤ b.length → readU32 b 0 = some four → four ≠ DFCC_Container →
      IsDXILBytecode b = some (false, 0)) ∧
    (∀ maj, 32 ≤ b.length → readU32 b 0 = some DFCC_Container → readU16 b 20 = some maj →
      maj ≠ DxilContainerVersionMajor → IsDXILBytecode b = some (false, 1)) ∧
    (∀ pc, 32 ≤ b.length → readU32 b 0 = some DFCC_Container →
      readU16 b 20 = some DxilContainerVersionMajor → readU32 b 28 = some pc →
      b.length < 32 + 4 * pc → IsDXILBytecode b = some (false, 0)) ∧
    (∀ pc, 32 ≤ b.length → readU32 b 0 = some DFCC_Container →
      readU16 b 20 = some DxilContainerVersionMajor → readU32 b 28 = some pc →
      32 + 4 * pc ≤ b.length →
      (IsDXILBytecode b = some (true, 0) ↔
        ∃ m, m < pc ∧
          (∀ j, j ≤ m → ∃ off, readU32 b (32 + 4 * j) = some off ∧ off + 8 ≤ b.length) ∧
          (∃ off, readU32 b (32 + 4 * m) = some off ∧ readU32 b off = some DFCC_DXIL))) := by
  refine ⟨?_, ?_, ?_, ?_, ?_, ?_⟩
  · by_cases h32 : b.length < 32
    · simp [IsDXILBytecode, h32]
    · push_neg at h32
      obtain ⟨four, hfour⟩ := readU32_eq_some (b := b) (i := 0) (by omega)
      by_cases hf : four = DFCC_Container
      · subst hf
        obtain ⟨maj, hmaj⟩ := readU16_eq_some (b := b) (i := 20) (by omega)
        by_cases hm : maj = DxilContainerVersionMajor
        · subst hm
          obtain ⟨pc, hpc⟩ := readU32_eq_some (b := b) (i := 28) (by omega)
          by_cases htab : b.length < 32 + 4 * pc
          · simp [IsDXILBytecode, hfour, hmaj, hpc, h32, htab, Nat.not_lt.mpr h32]
          · push_neg at htab
            have hscan := findDXILPart_isSome (b := b) pc 0 (by omega)
            obtain ⟨r, hr⟩ := Option.isSome_iff_exists.mp hscan
            simp [IsDXILBytecode, hfour, hmaj, hpc, Nat.not_lt.mpr h32, Nat.not_lt.mpr htab, hr]
        · simp [IsDXILBytecode, hfour, hmaj, hm, Nat.not_lt.mpr h32]
      · simp [IsDXILBytecode, hfour, hf, Nat.not_lt.mpr h32]
  · intro h32; simp [IsDXILBytecode, h32]
  · intro four h32 hfour hf
    simp [IsDXILBytecode, Nat.not_lt.mpr h32, hfour, hf]
  · intro maj h32 hfour hmaj hm
    simp [IsDXILBytecode, Nat.not_lt.mpr h32, hfour, hmaj, hm]
  · intro pc h32 hfour hmaj hpc htab
    simp [IsDXILBytecode, Nat.not_lt.mpr h32, hfour, hmaj, hpc, htab]
  · intro pc h32 hfour hmaj hpc htab
    have hiff := findDXILPart_true_iff (b := b) pc 0 (by omega)
    have hscan := findDXILPart_isSome (b := b) pc 0 (by omega)
    obtain ⟨r, hr⟩ := Option.isSome_iff_exists.mp hscan
    have hprobe : IsDXILBytecode b = some (r, 0) := by
      simp [IsDXILBytecode, Nat.not_lt.mpr h32, hfour, hmaj, hpc, Nat.not_lt.mpr htab, hr]
    rw [hprobe]
    rw [hr] at hiff
    simp only [Nat.zero_add] at hiff
    constructor
    · intro hsome
      have : r = true := by
        have := Option.some_inj.mp hsome
        exact congrArg Prod.fst this
      rw [this] at hiff
      exact hiff.mp rfl
    · intro hex
      have : some r = some true := by
        by_cases hrt : r = true
        · rw [hrt]
        · have hfalse : r = false := by cases r <;> simp_all
          rw [hfalse] at hiff
          exact absurd (hiff.mpr hex) (by simp)
      rw [Option.some_inj.mp this]

/-- Witness for `C5_probe_behavior`: the wrong-major buffer yields false with
one warning, and the good buffer yields true. -/
theorem C5_probe_behavior_witness :
    IsDXILBytecode probeWrongMajorBuf = some (false, 1) ∧
    IsDXILBytecode probeGoodBuf = some (true, 0) := by
  constructor
  · exact (C5_probe_behavior probeWrongMajorBuf).2.2.2.1 2 (by decide) (by decide)
      (by decide) (by decide)
  · exact ((C5_probe_behavior probeGoodBuf).2.2.2.2.2 1 (by decide) (by decide) (by decide)
      (by decide) (by decide)).mpr
      ⟨0, by decide, fun j hj => by
          interval_cases j
          exact ⟨36, by decide, by decide⟩,
        ⟨36, by decide, by decide⟩⟩

/-! ## Field-parse semantics of the declaration patchers (claim C10) -/

/-- Claim C10: in the equality gate and record reader of the declaration
patchers, the textual field value is parsed as a signed integer
(`std::stoi`) and cast to `Uint32`, so `ReadRecord` yields the parsed value
modulo `2^32` and `ReplaceRecord`'s gate passes exactly when the parsed value
is congruent to the expected previous value modulo `2^32` — in particular the
IR text `"-1"` parses to `0xFFFFFFFF`, and a sentinel-valued field passes the
gate and is rewritten. -/
theorem C10_parse_modulo (DXIL : Str) (pos : Nat) (NewValue : Str)
    (Name RecordName : String) (Expected : Nat) (v : Int)
    (hlen : pos + 1 < DXIL.length) (hc : charAt DXIL pos = ',')
    (hsp : charAt DXIL (pos + 1) = ' ')
    (hi32 : matchAt DXIL (pos + 2) i32Tok = true)
    (hv : stoiOpt (substr DXIL (pos + 6)
      (((strFindFirstNotOf DXIL NumberSymbols (pos + 6)).getD DXIL.length) - (pos + 6))) =
      some v) :
    stoiU32 ("-1".data) = some 4294967295 ∧
    ReadRecord DXIL pos = .ok (some ((v.emod 4294967296).toNat),
      (strFindFirstNotOf DXIL NumberSymbols (pos + 6)).getD DXIL.length) ∧
    (ReplaceRecord DXIL pos NewValue Name RecordName Expected =
      if (v.emod 4294967296).toNat = Expected then
        .ok (strReplace DXIL (pos + 6)
          (((strFindFirstNotOf DXIL NumberSymbols (pos + 6)).getD DXIL.length) - (pos + 6))
          NewValue, pos + 6 + NewValue.length)
      else .error (.patchErr (mkPatchMsg Name "previous value does not match the expected"))) := by
  refine ⟨by decide, ?_, ?_⟩
  · simp [ReadRecord, hlen, hc, hsp, hi32, stoiU32, hv, toU32]
  · by_cases he : (v.emod 4294967296).toNat = Expected
    · simp [ReplaceRecord, hlen, hc, hsp, hi32, stoiU32, hv, toU32, he, Nat.add_assoc]
    · simp [ReplaceRecord, hlen, hc, hsp, hi32, stoiU32, hv, toU32, he]

/-- Witness for `C10_parse_modulo`: the field text `", i32 -1"` with expected
previous value `0xFFFFFFFF` passes the gate and is rewritten to `", i32 4"`. -/
theorem C10_parse_modulo_witness :
    ReplaceRecord (", i32 -1, i32 7".data) 0 ("4".data) "g_Tex" "space" 4294967295 =
      .ok ((", i32 4, i32 7".data : Str), 7) := by
  have h := (C10_parse_modulo (", i32 -1, i32 7".data) 0 ("4".data) "g_Tex" "space"
    4294967295 (-1) (by decide) (by decide) (by decide) (by decide) (by decide)).2.2
  simpa using h

/-! ## Equality gate of the declaration patchers (claim C4) -/

/-- Substring test (used to state what an error message does or does not
name). -/
def strContains (s sub : Str) : Bool := (firstOcc s sub).isSome

theorem firstOcc_isSome_of_matchAt {sub : Str} :
    ∀ (s : Str) (i : Nat), matchAt s i sub = true → (firstOcc s sub).isSome := by
  intro s
  induction s with
  | nil =>
    intro i h
    simp only [matchAt, List.drop_nil] at h
    have : sub = [] := by
      cases sub with
      | nil => rfl
      | cons c cs => simp [List.isPrefixOf] at h
    subst this
    simp [firstOcc]
  | cons c rest ih =>
    intro i h
    by_cases hp : sub.isPrefixOf (c :: rest)
    · simp [firstOcc, hp]
    · cases i with
      | zero =>
        simp only [matchAt, List.drop_zero] at h
        exact absurd h hp
      | succ j =>
        have : matchAt rest j sub = true := by
          simpa [matchAt, List.drop_succ_cons] using h
        have := ih j this
        simpa [firstOcc, hp, Option.isSome_map] using this

theorem strContains_mkPatchMsg (Name rest : String) :
    strContains (mkPatchMsg Name rest).data (Name.data) = true := by
  have hdata : (mkPatchMsg Name rest).data =
      ("Unable to patch DXIL for resource '".data) ++ Name.data ++ ("': " ++ rest).data := by
    simp [mkPatchMsg]
  have hmatch : matchAt (mkPatchMsg Name rest).data
      ("Unable to patch DXIL for resource '".data).length (Name.data) = true := by
    rw [hdata, matchAt]
    rw [List.append_assoc, List.drop_left]
    exact List.isPrefixOf_iff_prefix.mpr (List.prefix_append _ _)
  exact firstOcc_isSome_of_matchAt _ _ hmatch

/-- Claim C4, counterexample: at a concrete mismatching field the gate's error
message names the resource but does not name the field (`"space"` occurs
nowhere in it), refuting "raising an error that names the resource and the
field". -/
theorem C4_field_not_named_counterexample :
    ReplaceRecord (", i32 3, i32 7".data) 0 ("0".data) "g_Tex" "space" 5 =
      .error (.patchErr (mkPatchMsg "g_Tex" "previous value does not match the expected")) ∧
    strContains (mkPatchMsg "g_Tex" "previous value does not match the expected").data
      ("space".data) = false := by
  constructor
  · decide
  · decide

/-- Claim C4 (amended): each numeric-field replacement parses the current
field value and compares it against the previously captured original value;
on mismatch no replacement is performed and the pass aborts with an error
naming the resource (but not the field), and a pass error is always fatal to
the remap (the scanning loop stops, `PatchDXIL` reports it, and
`RemapResourceBindings` returns failure with no output written). -/
theorem C4_gate_mismatch_fatal (DXIL : Str) (pos : Nat) (NewValue : Str)
    (Name RecordName : String) (Expected : Nat) (v : Int)
    (hlen : pos + 1 < DXIL.length) (hc : charAt DXIL pos = ',')
    (hsp : charAt DXIL (pos + 1) = ' ')
    (hi32 : matchAt DXIL (pos + 2) i32Tok = true)
    (hv : stoiOpt (substr DXIL (pos + 6)
      (((strFindFirstNotOf DXIL NumberSymbols (pos + 6)).getD DXIL.length) - (pos + 6))) =
      some v)
    (hne : (v.emod 4294967296).toNat ≠ Expected) :
    (ReplaceRecord DXIL pos NewValue Name RecordName Expected =
      .error (.patchErr (mkPatchMsg Name "previous value does not match the expected"))) ∧
    strContains (mkPatchMsg Name "previous value does not match the expected").data
      Name.data = true ∧
    (∀ fuel pos' ext e, patchDeclStep DXIL pos' ext = .fail e →
      patchDeclLoop (fuel + 1) DXIL pos' ext = .err e) ∧
    (∀ (o : DxcBackend) (rm : TResourceBindingMap) (fuel : Nat) (e : PatchEx),
      remapPatchResult o rm fuel = some (.err e) →
      RemapResourceBindings o rm fuel = (false, none)) := by
  refine ⟨?_, strContains_mkPatchMsg _ _, ?_, ?_⟩
  · simp [ReplaceRecord, hlen, hc, hsp, hi32, stoiU32, hv, toU32, hne]
  · intro fuel pos' ext e hstep
    simp [patchDeclLoop, hstep]
  · intro o rm fuel e h
    simp [RemapResourceBindings, h]

/-- Witness for `C4_gate_mismatch_fatal`: a concrete mismatching field. -/
theorem C4_gate_mismatch_fatal_witness :
    ReplaceRecord (", i32 2, i32 7".data) 0 ("9".data) "g_Buf" "register" 4 =
      .error (.patchErr (mkPatchMsg "g_Buf" "previous value does not match the expected")) := by
  exact (C4_gate_mismatch_fatal (", i32 2, i32 7".data) 0 ("9".data) "g_Buf" "register" 4 2
    (by decide) (by decide) (by decide) (by decide) (by decide) (by decide)).1

/-! ## Literal-index resolution in the handle-creation patcher (claim C1) -/

theorem find?_congr {α : Type} (p q : α → Bool) :
    ∀ (l : List α), (∀ x ∈ l, p x = q x) → l.find? p = l.find? q := by
  intro l
  induction l with
  | nil => intro _; rfl
  | cons a t ih =>
    intro h
    have ha := h a (by simp)
    rw [List.find?_cons, List.find?_cons, ha]
    cases q a with
    | true => rfl
    | false => exact ih (fun x hx => h x (by simp [hx]))

/-- Claim C1: for a literal index operand, `ReplaceBindPoint` selects the
first extended-map entry whose record id equals the call's range id, whose
coarse kind equals the resource class mapped through
(0 = SRV, 1 = UAV, 2 = CBV, 3 = Sampler), and whose half-open interval
`[SrcBindPoint, SrcBindPoint + ArraySize)` contains the parsed source index,
rewriting the index span to `BindPoint + (SrcIndex - SrcBindPoint)`; with no
such entry the patch fails with a hard error.  The entry bounds are `Uint32`
sums in the source, so the interval reading requires them not to wrap. -/
theorem C1_literal_index_resolution (ext : TExtendedResourceMap) (ResClass RangeId : Nat)
    (DXIL : Str) (s e : Nat) (SrcIndex : Nat)
    (hparse : stoiU32 (substr DXIL s (e - s)) = some SrcIndex)
    (hnoov : ∀ en ∈ ext, en.info.SrcBindPoint + en.bind.ArraySize < 4294967296) :
    (match ext.find? (fun en =>
        en.info.RecordId == RangeId && en.info.Ty == ResClassToType ResClass &&
        (en.info.SrcBindPoint ≤ SrcIndex) && (SrcIndex < en.info.SrcBindPoint + en.bind.ArraySize)) with
     | some en =>
        en.bind.BindPoint + (SrcIndex - en.info.SrcBindPoint) < 4294967296 →
        ReplaceBindPoint ext ResClass RangeId DXIL s e =
          .ok (strReplace DXIL s (e - s)
            (u32Str (en.bind.BindPoint + (SrcIndex - en.info.SrcBindPoint))))
     | none =>
        ReplaceBindPoint ext ResClass RangeId DXIL s e =
          .error (.patchErr "Failed to find resource in ResourceMap")) := by
  have hcong : ext.find? (fun en =>
        en.info.RecordId == RangeId && en.info.Ty == ResClassToType ResClass &&
        en.info.SrcBindPoint ≤ SrcIndex &&
        SrcIndex < (en.info.SrcBindPoint + en.bind.ArraySize) % 4294967296) =
      ext.find? (fun en =>
        en.info.RecordId == RangeId && en.info.Ty == ResClassToType ResClass &&
        (en.info.SrcBindPoint ≤ SrcIndex) && (SrcIndex < en.info.SrcBindPoint + en.bind.ArraySize)) := by
    apply find?_congr
    intro x hx
    rw [Nat.mod_eq_of_lt (hnoov x hx)]
  cases hfind : ext.find? (fun en =>
      en.info.RecordId == RangeId && en.info.Ty == ResClassToType ResClass &&
      (en.info.SrcBindPoint ≤ SrcIndex) && (SrcIndex < en.info.SrcBindPoint + en.bind.ArraySize)) with
  | none =>
    simp only [ReplaceBindPoint, hparse, hcong, hfind]
  | some en =>
    simp only
    intro hfit
    simp only [ReplaceBindPoint, hparse, hcong, hfind, Nat.mod_eq_of_lt hfit]

/-- Witness for `C1_literal_index_resolution`: an entry with original bind
point 5, array size 4 and target bind point 10; source index 7 resolves to
`10 + 2 = 12`. -/
theorem C1_literal_index_resolution_witness :
    ReplaceBindPoint
      [⟨0, "g_Arr", ⟨10, 0, 4⟩, ⟨5, 0, 3, RES_TYPE.SRV⟩⟩] 0 3 ("7)".data) 0 1 =
      .ok ("12)".data) := by
  have h := C1_literal_index_resolution
    [⟨0, "g_Arr", ⟨10, 0, 4⟩, ⟨5, 0, 3, RES_TYPE.SRV⟩⟩] 0 3 ("7)".data) 0 1 7
    (by decide) (by decide)
  simp only [List.find?] at h
  simpa using h (by decide)

/-! ## Dynamic-index patching in the handle-creation patcher (claim C6) -/

theorem skipDigits_ge (DXIL : Str) (p : Nat) : p ≤ skipDigits DXIL p :=
  Nat.le_add_right _ _

theorem charAt_drop (s : Str) (p j : Nat) : charAt (s.drop p) j = charAt s (p + j) := by
  simp [charAt, List.getD, List.getElem?_drop]

theorem skipDigitsAux_all (s : Str) :
    ∀ j, j < skipDigitsAux s → IsNumberSymbol (charAt s j) := by
  induction s with
  | nil => intro j hj; simp [skipDigitsAux] at hj
  | cons c rest ih =>
    intro j hj
    by_cases hd : IsNumberSymbol c
    · cases j with
      | zero => simpa [charAt] using hd
      | succ j =>
        rw [skipDigitsAux, if_pos hd] at hj
        have := ih j (by omega)
        simpa [charAt, List.getD] using this
    · rw [skipDigitsAux, if_neg hd] at hj
      omega

theorem skipDigits_all_digits (DXIL : Str) (p : Nat) :
    ∀ k, p ≤ k → k < skipDigits DXIL p → IsNumberSymbol (charAt DXIL k) := by
  intro k h1 h2
  rw [skipDigits] at h2
  have hj := skipDigitsAux_all (DXIL.drop p) (k - p) (by omega)
  rw [charAt_drop] at hj
  rwa [Nat.add_sub_cancel' h1] at hj

theorem strReplace_take {s : Str} {p len : Nat} (t : Str) (h : p ≤ s.length) :
    (strReplace s p len t).take p = s.take p := by
  unfold strReplace
  rw [List.append_assoc]
  have h1 : (s.take p).length = p := by simp [List.length_take, Nat.min_eq_left h]
  exact List.take_left' h1

theorem strReplace_drop {s : Str} {p len : Nat} (t : Str) (h : p ≤ s.length) :
    (strReplace s p len t).drop (p + t.length) = s.drop (p + len) := by
  unfold strReplace
  rw [List.append_assoc]
  have h1 : (s.take p).length = p := by simp [List.length_take, Nat.min_eq_left h]
  rw [show p + t.length = (s.take p).length + t.length by rw [h1]]
  rw [List.drop_append]
  rw [show t.length = t.length + 0 from rfl]
  rw [List.drop_append]
  rfl

theorem stoiU32_nil : stoiU32 ([] : Str) = none := by decide

theorem substr_ne_nil_lt {s : Str} {a l : Nat} (h : substr s a l ≠ []) : a < s.length := by
  by_contra hc
  push_neg at hc
  apply h
  unfold substr
  rw [List.drop_eq_nil_of_le hc]
  simp

/-- Shape of a successful `ReplaceBindPoint`: the output is the input with
exactly the span `[a, b)` replaced by the new decimal literal. -/
theorem ReplaceBindPoint_ok_shape {ext : TExtendedResourceMap} {ResClass RangeId : Nat}
    {DXIL : Str} {a b : Nat} {out : Str}
    (h : ReplaceBindPoint ext ResClass RangeId DXIL a b = .ok out) :
    ∃ (SrcIndex : Nat) (en : ExtEntry) (newLit : Str),
      stoiU32 (substr DXIL a (b - a)) = some SrcIndex ∧
      newLit = u32Str ((en.bind.BindPoint + (SrcIndex - en.info.SrcBindPoint)) % 4294967296) ∧
      out = strReplace DXIL a (b - a) newLit := by
  simp only [ReplaceBindPoint] at h
  split at h
  · exact absurd h (by simp)
  next i hp =>
    split at h
    next hf => exact absurd h (by simp)
    next en hf =>
      refine ⟨i, en, _, hp, rfl, ?_⟩
      have := Except.ok.inj h
      exact this.symm

theorem NextArg_ge (DXIL : Str) (p : Nat) : p ≤ (NextArg DXIL p).2 := by
  rw [NextArg]
  cases nextArgAux (DXIL.drop p) with
  | mk b d => exact Nat.le_add_right _ _

/-- Claim C6: a successful dynamic-index patch locates the defining
`"<var> = add i32 "` expression by backward search, replaces exactly one
all-digit literal span inside it (whichever operand position the literal
occupies — after the comma when the first operand is a `%`-reference,
immediately after the opcode otherwise), and leaves every character before
the span and after it (in particular the non-literal base operand)
unchanged. -/
theorem C6_dynamic_index (ext : TExtendedResourceMap) (ResClass RangeId : Nat)
    (DXIL : Str) (SrcIndexStr : Str) (IndexEndPos : Nat) (DXILp : Str)
    (h : PatchDynamicIndex ext ResClass RangeId DXIL SrcIndexStr IndexEndPos = .ok DXILp) :
    ∃ declPos argStart argEnd newLit,
      rfindUpTo DXIL (SrcIndexStr ++ " = add i32 ".data) IndexEndPos = some declPos ∧
      (∀ k, argStart ≤ k → k < argEnd → IsNumberSymbol (charAt DXIL k)) ∧
      substr DXIL argStart (argEnd - argStart) ≠ [] ∧
      DXILp = strReplace DXIL argStart (argEnd - argStart) newLit ∧
      DXILp.take argStart = DXIL.take argStart ∧
      DXILp.drop (argStart + newLit.length) = DXIL.drop argEnd ∧
      ((charAt DXIL (declPos + SrcIndexStr.length + 11) = '%' ∧
        declPos + SrcIndexStr.length + 11 < argStart) ∨
       (¬ charAt DXIL (declPos + SrcIndexStr.length + 11) = '%' ∧
        argStart = declPos + SrcIndexStr.length + 11)) := by
  have hlen11 : (" = add i32 ".data : Str).length = 11 := by decide
  simp only [PatchDynamicIndex] at h
  split at h
  · exact absurd h (by simp)
  next declPos hdecl =>
    set pos0 := declPos + (SrcIndexStr ++ " = add i32 ".data).length with hpos0
    have hpos0' : pos0 = declPos + SrcIndexStr.length + 11 := by
      rw [hpos0, List.length_append, hlen11]; omega
    split at h
    next hpct =>
      -- first operand is a %-reference: the literal is the second operand
      split at h
      next hna => exact absurd h (by simp)
      next na hna =>
        split at h
        next hnum => exact absurd h (by simp)
        next hnum =>
          split at h
          next hterm => exact absurd h (by simp)
          next hterm =>
            push_neg at hnum
            obtain ⟨SrcIndex, en, newLit, hp, hnl, hout⟩ := ReplaceBindPoint_ok_shape h
            have hne : substr DXIL (na + 2) (skipDigits DXIL (na + 2) - (na + 2)) ≠ [] := by
              intro hnil
              rw [hnil, stoiU32_nil] at hp
              cases hp
            have hle : na + 2 < DXIL.length := substr_ne_nil_lt hne
            have hge : pos0 ≤ na := by
              have := NextArg_ge DXIL pos0
              rw [hna] at this
              exact this
            refine ⟨declPos, na + 2, skipDigits DXIL (na + 2), newLit, hdecl, ?_, hne, hout, ?_, ?_, ?_⟩
            · intro k h1 h2
              exact skipDigits_all_digits DXIL (na + 2) k h1 h2
            · rw [hout]; exact strReplace_take _ (by omega)
            · rw [hout]
              have := @strReplace_drop DXIL (na + 2)
                (skipDigits DXIL (na + 2) - (na + 2)) newLit (by omega)
              rw [this]
              congr 1
              have := skipDigits_ge DXIL (na + 2)
              omega
            · left
              rw [← hpos0']
              exact ⟨hpct, by omega⟩
    next hpct =>
      -- first operand is the literal
      split at h
      next hterm => exact absurd h (by simp)
      next hterm =>
        obtain ⟨SrcIndex, en, newLit, hp, hnl, hout⟩ := ReplaceBindPoint_ok_shape h
        have hne : substr DXIL pos0 (skipDigits DXIL pos0 - pos0) ≠ [] := by
          intro hnil
          rw [hnil, stoiU32_nil] at hp
          cases hp
        have hle : pos0 < DXIL.length := substr_ne_nil_lt hne
        refine ⟨declPos, pos0, skipDigits DXIL pos0, newLit, hdecl, ?_, hne, hout, ?_, ?_, ?_⟩
        · intro k h1 h2
          exact skipDigits_all_digits DXIL pos0 k h1 h2
        · rw [hout]; exact strReplace_take _ (by omega)
        · rw [hout]
          have := @strReplace_drop DXIL pos0
            (skipDigits DXIL pos0 - pos0) newLit (by omega)
          rw [this]
          congr 1
          have := skipDigits_ge DXIL pos0
          omega
        · right
          rw [← hpos0']
          exact ⟨hpct, rfl⟩

/-- Scenario IR for claim C6: a dynamic index `%22 = add i32 %base, 7` feeding
a `createHandle` call. -/
def dynScenarioDXIL : Str :=
  ("  %22 = add i32 %base, 7\n  %h = call %dx.types.Handle @dx.op.createHandle(i32 57, i8 0, i32 3, i32 %22, i1 false)\n").data

/-- Scenario map for claim C6: record id 3, SRV, original bind point 5, array
size 4, target bind point 10. -/
def dynScenarioExt : TExtendedResourceMap :=
  [⟨0, "g_Arr", ⟨10, 0, 4⟩, ⟨5, 0, 3, RES_TYPE.SRV⟩⟩]

/-- Scenario output for claim C6: only the literal `7` became `12`. -/
def dynScenarioPatched : Str :=
  ("  %22 = add i32 %base, 12\n  %h = call %dx.types.Handle @dx.op.createHandle(i32 57, i8 0, i32 3, i32 %22, i1 false)\n").data

/-- Witness for `C6_dynamic_index`: on the scenario input the patch succeeds,
rewrites only the literal offset `7` (to `12`), and `%base` is untouched. -/
theorem C6_dynamic_index_witness :
    PatchDynamicIndex dynScenarioExt 0 3 dynScenarioDXIL ("%22".data) 102 =
      .ok dynScenarioPatched ∧
    (∃ declPos argStart argEnd newLit,
      rfindUpTo dynScenarioDXIL (("%22".data : Str) ++ " = add i32 ".data) 102 = some declPos ∧
      (∀ k, argStart ≤ k → k < argEnd → IsNumberSymbol (charAt dynScenarioDXIL k)) ∧
      substr dynScenarioDXIL argStart (argEnd - argStart) ≠ [] ∧
      dynScenarioPatched = strReplace dynScenarioDXIL argStart (argEnd - argStart) newLit ∧
      dynScenarioPatched.take argStart = dynScenarioDXIL.take argStart ∧
      dynScenarioPatched.drop (argStart + newLit.length) = dynScenarioDXIL.drop argEnd ∧
      ((charAt dynScenarioDXIL (declPos + ("%22".data : Str).length + 11) = '%' ∧
        declPos + ("%22".data : Str).length + 11 < argStart) ∨
       (¬ charAt dynScenarioDXIL (declPos + ("%22".data : Str).length + 11) = '%' ∧
        argStart = declPos + ("%22".data : Str).length + 11))) := by
  have hok : PatchDynamicIndex dynScenarioExt 0 3 dynScenarioDXIL ("%22".data) 102 =
      .ok dynScenarioPatched := by decide
  exact ⟨hok, C6_dynamic_index dynScenarioExt 0 3 dynScenarioDXIL ("%22".data) 102
    dynScenarioPatched hok⟩

/-! ## Missing reflection entries in the map builder (claim C3) -/

/-- Backend whose reflection knows no resource at all; every other external
call succeeds, the assembled blob is `7`, validation succeeds with a null
result blob. -/
def c3Backend : DxcBackend := {
  createInstanceOk := true
  libraryOk := true
  assemblerOk := true
  compilerOk := true
  disasm := some []
  reflection := some (0, fun _ => none)
  createBlobOk := true
  assemble := fun _ => some 7
  assembleGetResultOk := true
  validatorOk := true
  validateCall := fun _ => some true
  valGetResult := fun _ => some none }

/-- Claim C3, counterexample: a remap whose single binding request has no
reflection entry (the backend's lookup returns `none` for every name) does
not abort — it runs to completion and returns success with an output blob,
refuting "the remap call aborts with an error". -/
theorem C3_missing_reflection_counterexample :
    RemapResourceBindings c3Backend [("g_Missing", ⟨0, 0, 1⟩)] 1 = (true, some 7) := rfl

/-- Claim C3 (amended): a binding request whose name has no matching
reflection entry is silently skipped during extended-map construction — no
entry is created for it and no error is raised at that stage — and the remap
continues with the remaining requests; every entry of a successfully built
map comes from a request whose lookup succeeded. -/
theorem C3_missing_reflection_skipped (lookup : String → Option ResDesc) :
    (∀ (name : String) (bind : BindInfo) (rest : TResourceBindingMap) (idx : Nat),
      lookup name = none →
      buildExtResourceMap lookup ((name, bind) :: rest) idx =
        buildExtResourceMap lookup rest (idx + 1)) ∧
    (∀ (rm : TResourceBindingMap) (idx : Nat) (ext : TExtendedResourceMap),
      buildExtResourceMap lookup rm idx = some ext →
      ∀ en ∈ ext, ∃ d, lookup en.name = some d ∧
        sitToResType d.Ty = some en.info.Ty ∧
        en.info.SrcBindPoint = d.BindPoint ∧ en.info.SrcSpace = d.Space) := by
  constructor
  · intro name bind rest idx h
    simp [buildExtResourceMap, h]
  · intro rm
    induction rm with
    | nil =>
      intro idx ext h en hen
      simp [buildExtResourceMap] at h
      subst h
      cases hen
    | cons hd tl ih =>
      intro idx ext h en hen
      obtain ⟨name, bind⟩ := hd
      simp only [buildExtResourceMap] at h
      cases hl : lookup name with
      | none =>
        simp only [hl] at h
        exact ih (idx + 1) ext h en hen
      | some d =>
        simp only [hl] at h
        cases ht : sitToResType d.Ty with
        | none => simp only [ht] at h; cases h
        | some t =>
          simp only [ht] at h
          cases hrest : buildExtResourceMap lookup tl (idx + 1) with
          | none => simp only [hrest, Option.map_none] at h; cases h
          | some ext' =>
            simp only [hrest, Option.map_some] at h
            have hext : ext = ⟨idx, name, bind, ⟨d.BindPoint, d.Space, 4294967295, t⟩⟩ :: ext' := by
              exact (Option.some_inj.mp h).symm
            subst hext
            cases hen with
            | head => exact ⟨d, hl, ht, rfl, rfl⟩
            | tail _ htl => exact ih (idx + 1) ext' hrest en htl

/-- Witness for `C3_missing_reflection_skipped`: with a lookup that only
knows `"g_Tex"`, a request list with an unknown first name builds the same
map as the list without it. -/
theorem C3_missing_reflection_skipped_witness :
    buildExtResourceMap
      (fun n => if n = "g_Tex" then some ⟨2, 0, D3D_SIT.texture, 1⟩ else none)
      [("g_Missing", ⟨0, 0, 1⟩), ("g_Tex", ⟨3, 0, 1⟩)] 0 =
    buildExtResourceMap
      (fun n => if n = "g_Tex" then some ⟨2, 0, D3D_SIT.texture, 1⟩ else none)
      [("g_Tex", ⟨3, 0, 1⟩)] 1 := by
  exact (C3_missing_reflection_skipped
    (fun n => if n = "g_Tex" then some ⟨2, 0, D3D_SIT.texture, 1⟩ else none)).1
    "g_Missing" ⟨0, 0, 1⟩ [("g_Tex", ⟨3, 0, 1⟩)] 0 (by simp)

/-! ## Pass dispatch order (claim C2) -/

/-- A `createHandle` call line used to observe whether the handle-creation
pass runs. -/
def handleScenarioDXIL : Str :=
  "  %h = call %dx.types.Handle @dx.op.createHandle(i32 57, i8 0, i32 3, i32 7, i1 false)\n".data

/-- Claim C2, counterexample: for a ray-tracing shader the handle-creation
patcher does not run at all.  The pass list of a `RAY_GEN` remap has no
`handle` stage, and on an IR with a `createHandle` call (which the handle
pass, run with an empty extended map, would reject with a hard error) the
ray-tracing pipeline succeeds untouched while the same input under a compute
shader fails in the handle pass — so the handle pass ran only in the
non-ray-tracing case. -/
theorem C2_pass_order_counterexample :
    RemapPassList SHADER_TYPE.RAY_GEN = [PassId.buildMap, PassId.declRT] ∧
    PassId.handle ∉ RemapPassList SHADER_TYPE.RAY_GEN ∧
    PatchDXIL [] [] SHADER_TYPE.RAY_GEN handleScenarioDXIL 5 = .ok handleScenarioDXIL [] ∧
    PatchDXIL [] [] SHADER_TYPE.COMPUTE handleScenarioDXIL 5 =
      .err (.patchErr "Failed to find resource in ResourceMap") := by
  refine ⟨by decide, by decide, by decide, by decide⟩

/-- Claim C2 (amended): the extended-map builder always runs first; for
non-ray-tracing shaders the generic declaration patcher then runs, followed
by the handle-creation patcher; for ray-tracing shaders only the ray-tracing
declaration patcher runs and the handle-creation patcher is not invoked. -/
theorem C2_pass_order (st : SHADER_TYPE) (rm : TResourceBindingMap)
    (ext : TExtendedResourceMap) (DXIL : Str) (fuel : Nat) :
    (isRayTracingType st = false →
      RemapPassList st = [PassId.buildMap, PassId.decl, PassId.handle] ∧
      PatchDXIL rm ext st DXIL fuel =
        (match PatchResourceDeclaration fuel ext DXIL with
         | .ok d e => PatchResourceHandle fuel e d
         | x => x)) ∧
    (isRayTracingType st = true →
      RemapPassList st = [PassId.buildMap, PassId.declRT] ∧
      PassId.handle ∉ RemapPassList st ∧
      PatchDXIL rm ext st DXIL fuel =
        (match PatchResourceDeclarationRT rm 0 DXIL ext with
         | .error e => .err e
         | .ok (d, e) => .ok d e)) := by
  constructor
  · intro h
    refine ⟨by simp [RemapPassList, h], by simp [PatchDXIL, h]⟩
  · intro h
    refine ⟨by simp [RemapPassList, h], by simp [RemapPassList, h], by simp [PatchDXIL, h]⟩

/-- Witness for `C2_pass_order`: both branches instantiated. -/
theorem C2_pass_order_witness :
    RemapPassList SHADER_TYPE.COMPUTE = [PassId.buildMap, PassId.decl, PassId.handle] ∧
    RemapPassList SHADER_TYPE.RAY_MISS = [PassId.buildMap, PassId.declRT] := by
  exact ⟨((C2_pass_order SHADER_TYPE.COMPUTE [] [] [] 1).1 (by decide)).1,
    ((C2_pass_order SHADER_TYPE.RAY_MISS [] [] [] 1).2 (by decide)).1⟩

/-! ## Failure containment of the remap pipeline (claim C7) -/

/-- Claim C7: if any pass raises a fatal condition the whole remap returns
failure and the destination blob is never assigned; the destination blob is
written only after a fully successful patch, assemble and validate, and then
it is exactly the validator's result for the assembly of the fully patched
IR text — no partially patched IR or binary is ever returned. -/
theorem C7_no_partial_output (o : DxcBackend) (rm : TResourceBindingMap) (fuel : Nat) :
    ((∃ e, remapPatchResult o rm fuel = some (.err e)) →
      RemapResourceBindings o rm fuel = (false, none)) ∧
    ((RemapResourceBindings o rm fuel).2 ≠ none →
      (RemapResourceBindings o rm fuel).1 = true ∧
      ∃ dxil2 ext2 compiled validated,
        remapPatchResult o rm fuel = some (.ok dxil2 ext2) ∧
        o.assemble dxil2 = some compiled ∧
        o.assembleGetResultOk = true ∧
        o.validatorOk = true ∧
        o.validateCall compiled = some true ∧
        o.valGetResult compiled = some validated ∧
        (RemapResourceBindings o rm fuel).2 = some (validated.getD compiled)) := by
  constructor
  · rintro ⟨e, he⟩
    simp [RemapResourceBindings, he]
  · intro hw
    cases hpr : remapPatchResult o rm fuel with
    | none => rw [RemapResourceBindings, hpr] at hw ⊢; simp at hw
    | some po =>
      cases po with
      | err e => rw [RemapResourceBindings, hpr] at hw ⊢; simp at hw
      | fuelOut => rw [RemapResourceBindings, hpr] at hw ⊢; simp at hw
      | ok dxil2 ext2 =>
        rw [RemapResourceBindings, hpr] at hw ⊢
        by_cases hcb : o.createBlobOk
        · simp only [hcb, not_true_eq_false, if_false] at hw ⊢
          cases ha : o.assemble dxil2 with
          | none => simp [ha] at hw
          | some compiled =>
            simp only [ha] at hw ⊢
            by_cases hgr : o.assembleGetResultOk
            · simp only [hgr] at hw ⊢
              rw [ValidateAndSign] at hw ⊢
              by_cases hvo : o.validatorOk
              · simp only [hvo] at hw ⊢
                cases hvc : o.validateCall compiled with
                | none => simp [hvc] at hw
                | some status =>
                  simp only [hvc] at hw ⊢
                  cases status with
                  | false => simp at hw
                  | true =>
                    simp only [if_true] at hw ⊢
                    cases hvg : o.valGetResult compiled with
                    | none => simp [hvg] at hw
                    | some validated =>
                      simp only [hvg] at hw ⊢
                      exact ⟨rfl, dxil2, ext2, compiled, validated, rfl, ha, by simp [hgr],
                        by simp [hvo], hvc, hvg, rfl⟩
              · simp [hvo] at hw
            · simp [hgr] at hw
        · simp [hcb] at hw

/-- Witness for `C7_no_partial_output`: a fully successful remap writes the
validated blob. -/
theorem C7_no_partial_output_witness :
    (RemapResourceBindings c3Backend [] 1).1 = true ∧
    ∃ dxil2 ext2 compiled validated,
      remapPatchResult c3Backend [] 1 = some (.ok dxil2 ext2) ∧
      c3Backend.assemble dxil2 = some compiled ∧
      c3Backend.assembleGetResultOk = true ∧
      c3Backend.validatorOk = true ∧
      c3Backend.validateCall compiled = some true ∧
      c3Backend.valGetResult compiled = some validated ∧
      (RemapResourceBindings c3Backend [] 1).2 = some (validated.getD compiled) := by
  exact (C7_no_partial_output c3Backend [] 1).2 (by
    have h : RemapResourceBindings c3Backend [] 1 = (true, some 7) := rfl
    rw [h]
    simp)

/-! ## Offset discipline across buffer edits (claim C8) -/

theorem matchAt_le_length {s pat : Str} {i : Nat} (h : matchAt s i pat = true)
    (hne : pat ≠ []) : i + pat.length ≤ s.length := by
  rw [matchAt] at h
  have hpre := List.isPrefixOf_iff_prefix.mp h
  have hlen := hpre.length_le
  rw [List.length_drop] at hlen
  have hpos : 0 < pat.length := List.length_pos.mpr hne
  omega

theorem ffno_getD_ge {s set : Str} {i : Nat} (hi : i ≤ s.length) :
    i ≤ (strFindFirstNotOf s set i).getD s.length := by
  cases hf : strFindFirstNotOf s set i with
  | none => simpa using hi
  | some r =>
    simp only [Option.getD_some]
    rw [strFindFirstNotOf] at hf
    cases hfi : firstIdxNotOf set (s.drop i) with
    | none => rw [hfi] at hf; cases hf
    | some d => rw [hfi] at hf; simp at hf; omega

/-- A successful `ReplaceRecord` recomputes its cursor across the edit: the
returned position is just past the inserted literal, the text before the
edited span is unchanged, and the text after the returned position is exactly
the text that followed the replaced span. -/
theorem ReplaceRecord_ok_cursor {DXIL : Str} {pos : Nat} {NewValue : Str}
    {Name RecordName : String} {Expected : Nat} {out : Str} {p' : Nat}
    (h : ReplaceRecord DXIL pos NewValue Name RecordName Expected = .ok (out, p')) :
    p' = pos + 6 + NewValue.length ∧
    out.take (pos + 6) = DXIL.take (pos + 6) ∧
    out.drop p' = DXIL.drop
      ((strFindFirstNotOf DXIL NumberSymbols (pos + 6)).getD DXIL.length) := by
  simp only [ReplaceRecord] at h
  split at h
  · exact absurd h (by simp)
  next hcond =>
    split at h
    · exact absurd h (by simp)
    next hi32 =>
      push_neg at hi32
      split at h
      · exact absurd h (by simp)
      next PrevValue hp =>
        split at h
        · exact absurd h (by simp)
        next hgate =>
          have hout := (Prod.mk.injEq _ _ _ _).mp (Except.ok.inj h)
          obtain ⟨hout1, hout2⟩ := hout
          have hle6 : pos + 6 ≤ DXIL.length := by
            have := matchAt_le_length hi32 (by decide)
            simpa [i32Tok] using this
          have hrec := @ffno_getD_ge DXIL NumberSymbols (pos + 6) hle6
          refine ⟨hout2.symm, ?_, ?_⟩
          · rw [← hout1]
            exact strReplace_take _ hle6
          · rw [← hout1, ← hout2]
            have hd := @strReplace_drop DXIL (pos + 6)
              (((strFindFirstNotOf DXIL NumberSymbols (pos + 6)).getD DXIL.length) - (pos + 6))
              NewValue hle6
            rw [hd]
            congr 1
            omega

/-- Extended map for the stale-cursor demonstration. -/
def c8Ext : TExtendedResourceMap :=
  [⟨0, "g_Tex", ⟨3, 0, 1⟩, ⟨4294967295, 4294967295, 4294967295, RES_TYPE.SRV⟩⟩]

/-- One empty-named declaration record followed by further IR text. -/
def c8Buf : Str :=
  ("!5 = !\x7bi32 0, %\"class.Texture2D<vector<float, 4> >\"* undef, !\"\", i32 -1, i32 -1, i32 1, i32 2, i32 0, !6\x7d\n!7 = !\x7bi32 1\x7d\n").data

/-- `c8Buf` after the two numeric replacements, before the name insertion. -/
def c8BufMid : Str :=
  ("!5 = !\x7bi32 0, %\"class.Texture2D<vector<float, 4> >\"* undef, !\"\", i32 0, i32 3, i32 1, i32 2, i32 0, !6\x7d\n!7 = !\x7bi32 1\x7d\n").data

/-- `c8Buf` after the two numeric replacements and the name insertion. -/
def c8BufPatched : Str :=
  ("!5 = !\x7bi32 0, %\"class.Texture2D<vector<float, 4> >\"* undef, !\"g_Tex\", i32 0, i32 3, i32 1, i32 2, i32 0, !6\x7d\n!7 = !\x7bi32 1\x7d\n").data

/-- `c8Ext` with the discovered record id 0. -/
def c8ExtAfter : TExtendedResourceMap :=
  [⟨0, "g_Tex", ⟨3, 0, 1⟩, ⟨4294967295, 4294967295, 0, RES_TYPE.SRV⟩⟩]

/-- Claim C8, counterexample: the generic declaration patcher's scan position
is not recomputed across its name-insertion edit.  On `c8Buf` the iteration
ends with the insertion of `"g_Tex"` (5 characters) at offset 62 of the
already-replaced buffer and resumes at cursor 77, the position computed
before the insertion: the resumed cursor does not address the text it
addressed before the edit (`c8BufMid.drop 77`) but the text shifted by the
inserted length (`c8BufMid.drop 72`). -/
theorem C8_stale_cursor_counterexample :
    patchDeclStep c8Buf 0 c8Ext = .next c8BufPatched 77 c8ExtAfter ∧
    c8BufPatched = strInsert c8BufMid 62 ("g_Tex".data) ∧
    c8BufPatched.drop 77 ≠ c8BufMid.drop 77 ∧
    c8BufPatched.drop 77 = c8BufMid.drop 72 := by
  refine ⟨by decide, by decide, by decide, by decide⟩

/-- Claim C8 (amended): the numeric-literal replacements recompute every
offset they hand onward — `ReplaceRecord` returns the position just past the
new literal, with the prefix before the span and the tail after the returned
position unchanged — but the generic declaration patcher's scan position is
NOT recomputed across its name-insertion edit: the loop resumes at the
cursor captured before the insertion, which addresses text shifted by the
inserted length. -/
theorem C8_offset_recomputation (DXIL : Str) (pos : Nat) (NewValue : Str)
    (Name RecordName : String) (Expected : Nat) (out : Str) (p' : Nat)
    (h : ReplaceRecord DXIL pos NewValue Name RecordName Expected = .ok (out, p')) :
    (p' = pos + 6 + NewValue.length ∧
     out.take (pos + 6) = DXIL.take (pos + 6) ∧
     out.drop p' = DXIL.drop
       ((strFindFirstNotOf DXIL NumberSymbols (pos + 6)).getD DXIL.length)) ∧
    (patchDeclStep c8Buf 0 c8Ext = .next c8BufPatched 77 c8ExtAfter ∧
     c8BufPatched.drop 77 = c8BufMid.drop 72 ∧
     c8BufPatched.drop 77 ≠ c8BufMid.drop 77) := by
  exact ⟨ReplaceRecord_ok_cursor h, by decide, by decide, by decide⟩

/-- Witness for `C8_offset_recomputation`: a concrete successful
`ReplaceRecord` whose returned cursor sits just past the new literal, with
prefix and tail preserved. -/
theorem C8_offset_recomputation_witness :
    (9 : Nat) = 0 + 6 + ("123".data : Str).length ∧
    ((", i32 123, tail".data : Str)).take 6 = ((", i32 -1, tail".data : Str)).take 6 ∧
    ((", i32 123, tail".data : Str)).drop 9 =
      (", i32 -1, tail".data : Str).drop
        ((strFindFirstNotOf (", i32 -1, tail".data) NumberSymbols 6).getD
          (", i32 -1, tail".data : Str).length) := by
  exact (C8_offset_recomputation (", i32 -1, tail".data) 0 ("123".data) "g_Tex" "space"
    4294967295 (", i32 123, tail".data) 9 (by decide)).1

/-! ## Context lemmas for scanning a buffer `U ++ N ++ V` whose reads stay
inside the middle segment (claims C9) -/

theorem drop_ctx {U N V : Str} {k : Nat} (hk : k ≤ N.length) :
    (U ++ N ++ V).drop (U.length + k) = N.drop k ++ V := by
  rw [List.append_assoc, List.drop_append, List.drop_append_of_le_length hk]

theorem take_ctx {U N V : Str} {k : Nat} (hk : k ≤ N.length) :
    (U ++ N ++ V).take (U.length + k) = U ++ N.take k := by
  rw [List.append_assoc, List.take_append, List.take_append_of_le_length hk]

theorem length_ctx {U N V : Str} :
    (U ++ N ++ V).length = U.length + N.length + V.length := by
  simp [List.length_append]
  omega

theorem charAt_ctx {U N V : Str} {k : Nat} (hk : k < N.length) :
    charAt (U ++ N ++ V) (U.length + k) = charAt N k := by
  unfold charAt
  rw [List.append_assoc,
    List.getD_append_right U (N ++ V) _ _ (by omega),
    Nat.add_sub_cancel_left,
    List.getD_append N V _ _ hk]

theorem isPrefixOf_append_det {pat X W : Str} (h : pat.length ≤ X.length) :
    pat.isPrefixOf (X ++ W) = pat.isPrefixOf X := by
  by_cases hx : pat.isPrefixOf X
  · rw [hx]
    have := List.isPrefixOf_iff_prefix.mp hx
    exact List.isPrefixOf_iff_prefix.mpr (this.trans (List.prefix_append _ _))
  · rw [Bool.eq_false_iff.mpr hx]
    rw [Bool.eq_false_iff]
    intro hc
    apply hx
    have hpre := List.prefix_iff_eq_take.mp (List.isPrefixOf_iff_prefix.mp hc)
    rw [List.take_append_of_le_length h] at hpre
    exact List.isPrefixOf_iff_prefix.mpr (List.prefix_iff_eq_take.mpr hpre)

theorem matchAt_ctx {U N V : Str} {k : Nat} (pat : Str) (hk : k + pat.length ≤ N.length) :
    matchAt (U ++ N ++ V) (U.length + k) pat = matchAt N k pat := by
  unfold matchAt
  rw [drop_ctx (by omega)]
  exact isPrefixOf_append_det (by rw [List.length_drop]; omega)

theorem firstOcc_append_left {X W pat : Str} :
    ∀ {o : Nat}, firstOcc X pat = some o → o + pat.length ≤ X.length →
    firstOcc (X ++ W) pat = some o := by
  induction X with
  | nil =>
    intro o h hle
    simp only [firstOcc] at h
    by_cases hp : pat.isEmpty
    · rw [if_pos hp] at h
      have ho : o = 0 := (Option.some_inj.mp h).symm
      subst ho
      have hpat : pat = [] := List.isEmpty_iff.mp hp
      subst hpat
      cases W with
      | nil => simp [firstOcc]
      | cons c w => simp [firstOcc, List.isPrefixOf]
    · rw [if_neg hp] at h; cases h
  | cons c rest ih =>
    intro o h hle
    simp only [firstOcc] at h
    by_cases hp : pat.isPrefixOf (c :: rest)
    · rw [if_pos hp] at h
      have ho : o = 0 := (Option.some_inj.mp h).symm
      subst ho
      have hlen : pat.length ≤ (c :: rest).length :=
        (List.isPrefixOf_iff_prefix.mp hp).length_le
      have hdet : pat.isPrefixOf ((c :: rest) ++ W) = pat.isPrefixOf (c :: rest) :=
        isPrefixOf_append_det hlen
      rw [hp] at hdet
      rw [List.cons_append] at hdet
      rw [List.cons_append]
      simp only [firstOcc]
      rw [if_pos hdet]
    · rw [if_neg hp] at h
      cases ho : firstOcc rest pat with
      | none => rw [ho] at h; cases h
      | some o2 =>
        rw [ho] at h
        have ho2 : o = o2 + 1 := by simpa using h.symm
        subst ho2
        have hrec := ih ho (by simp at hle ⊢; omega)
        have hlen2 : pat.length ≤ (c :: rest).length := by simp at hle ⊢; omega
        have hdet : pat.isPrefixOf ((c :: rest) ++ W) = pat.isPrefixOf (c :: rest) :=
          isPrefixOf_append_det hlen2
        have hpW : pat.isPrefixOf (c :: (rest ++ W)) = false := by
          rw [List.cons_append] at hdet
          rw [hdet]
          exact Bool.eq_false_iff.mpr hp
        rw [List.cons_append]
        simp only [firstOcc]
        rw [hpW, hrec]
        simp

theorem strFind_ctx {U N V pat : Str} {j o : Nat} (hj : j ≤ N.length)
    (ho : firstOcc (N.drop j) pat = some o)
    (hb : o + pat.length ≤ N.length - j) :
    strFind (U ++ N ++ V) pat (U.length + j) = some (U.length + j + o) := by
  unfold strFind
  rw [drop_ctx hj]
  rw [firstOcc_append_left ho (by rw [List.length_drop]; omega)]
  simp [Nat.add_comm, Nat.add_assoc, Nat.add_left_comm]

theorem rfindUpTo_found {s pat : Str} {lo : Nat} :
    ∀ hi, lo ≤ hi → matchAt s lo pat = true →
    (∀ j, lo < j → j ≤ hi → matchAt s j pat = false) →
    rfindUpTo s pat hi = some lo := by
  intro hi
  induction hi with
  | zero =>
    intro hle hm _
    have : lo = 0 := by omega
    subst this
    simp [rfindUpTo, hm]
  | succ h ih =>
    intro hle hm hno
    by_cases heq : lo = h + 1
    · subst heq
      simp [rfindUpTo, hm]
    · have hfalse := hno (h + 1) (by omega) (by omega)
      rw [rfindUpTo, hfalse]
      simp only [Bool.false_eq_true, if_false]
      exact ih (by omega) hm (fun j h1 h2 => hno j h1 (by omega))

theorem firstIdxNotOf_append_left {set X W : Str} :
    ∀ {o : Nat}, firstIdxNotOf set X = some o → firstIdxNotOf set (X ++ W) = some o := by
  induction X with
  | nil => intro o h; cases h
  | cons c rest ih =>
    intro o h
    simp only [firstIdxNotOf] at h ⊢
    by_cases hc : set.contains c
    · rw [if_pos hc] at h
      rw [if_pos hc]
      cases ho : firstIdxNotOf set rest with
      | none => rw [ho] at h; cases h
      | some o2 =>
        rw [ho] at h
        have ho2 : o = o2 + 1 := by simpa using h.symm
        subst ho2
        rw [show rest.append W = rest ++ W from rfl, ih ho]
        simp
    · rw [if_neg hc] at h
      have ho : o = 0 := (Option.some_inj.mp h).symm
      subst ho
      rw [if_neg hc]

theorem strFFNO_ctx {U N V set : Str} {j o : Nat} (hj : j ≤ N.length)
    (ho : firstIdxNotOf set (N.drop j) = some o) :
    strFindFirstNotOf (U ++ N ++ V) set (U.length + j) = some (U.length + j + o) := by
  unfold strFindFirstNotOf
  rw [drop_ctx hj, firstIdxNotOf_append_left ho]
  simp [Nat.add_comm, Nat.add_assoc, Nat.add_left_comm]

/-- Replacing a single-character span with the same character is the
identity edit. -/
theorem strReplace_id {s : Str} {p : Nat} {c : Char}
    (h : s.drop p = c :: s.drop (p + 1)) : strReplace s p 1 [c] = s := by
  unfold strReplace
  rw [List.append_assoc, List.singleton_append, ← h]
  exact List.take_append_drop p s

theorem strInsert_ctx {U N V ins : Str} {k : Nat} (hk : k ≤ N.length) :
    strInsert (U ++ N ++ V) (U.length + k) ins =
      (U ++ N.take k) ++ ins ++ (N.drop k ++ V) := by
  unfold strInsert
  rw [take_ctx hk, drop_ctx hk]

theorem parse_digit_comma {w : Str} {d : Char} (hd : IsNumberSymbol d)
    (hnd : ¬ IsNumberSymbol ',') :
    parseSignedDigits (d :: ',' :: w) = some (Int.ofNat (d.toNat - 48)) := by
  have hplus : d ≠ '+' := by
    intro h; subst h; simp [IsNumberSymbol] at hd
  have hminus : d ≠ '-' := by
    intro h; subst h; simp [IsNumberSymbol] at hd
  simp only [parseSignedDigits, if_neg hplus, if_neg hminus, hd, if_pos]
  simp [digitRun, hd, hnd]

theorem ReadResName_quote {D w : Str} {p : Nat} (h : D.drop p = '"' :: w) :
    ReadResName D p = (some [], p) := by
  have hw : IsWordSymbol '"' = false := by decide
  unfold ReadResName readResNameEnd
  rw [h]
  simp [readResNameAux, hw, substr]

theorem ReadRecord_ctx {U V : Str} (N : Str) {j v recEndOff : Nat}
    (hj6 : j + 6 ≤ N.length)
    (hc : charAt N j = ',') (hsp : charAt N (j + 1) = ' ')
    (hi32 : matchAt N (j + 2) i32Tok = true)
    (hffno : firstIdxNotOf NumberSymbols (N.drop (j + 6)) = some recEndOff)
    (hsub : stoiU32 ((N.drop (j + 6)).take recEndOff) = some v)
    (hre : recEndOff ≤ N.length - (j + 6)) :
    ReadRecord (U ++ N ++ V) (U.length + j) =
      .ok (some v, U.length + j + 2 + 4 + recEndOff) := by
  have hlen := length_ctx (U := U) (N := N) (V := V)
  have hcD : charAt (U ++ N ++ V) (U.length + j) = ',' := by
    rw [charAt_ctx (by omega)]; exact hc
  have hspD : charAt (U ++ N ++ V) (U.length + j + 1) = ' ' := by
    rw [show U.length + j + 1 = U.length + (j + 1) by omega, charAt_ctx (by omega)]; exact hsp
  have hi32D : matchAt (U ++ N ++ V) (U.length + j + 2) i32Tok = true := by
    rw [show U.length + j + 2 = U.length + (j + 2) by omega,
      matchAt_ctx i32Tok (by simp [i32Tok]; omega)]
    exact hi32
  have hffnoD : strFindFirstNotOf (U ++ N ++ V) NumberSymbols (U.length + j + 2 + 4) =
      some (U.length + j + 2 + 4 + recEndOff) := by
    rw [show U.length + j + 2 + 4 = U.length + (j + 6) by omega, strFFNO_ctx (by omega) hffno]
  have hlt : U.length + j + 1 < (U ++ N ++ V).length := by omega
  have hsubD : substr (U ++ N ++ V) (U.length + j + 2 + 4)
      (U.length + j + 2 + 4 + recEndOff - (U.length + j + 2 + 4)) =
      (N.drop (j + 6)).take recEndOff := by
    unfold substr
    rw [show U.length + j + 2 + 4 + recEndOff - (U.length + j + 2 + 4) = recEndOff by omega]
    rw [show U.length + j + 2 + 4 = U.length + (j + 6) by omega, drop_ctx (by omega)]
    rw [List.take_append_of_le_length (by rw [List.length_drop]; omega)]
  simp only [ReadRecord, hcD, hspD, hi32D, hlt, hffnoD, Option.getD_some, hsubD, hsub]
  simp

theorem ReplaceRecord_ctx_id {U V : Str} (N : Str) {j : Nat} {c : Char}
    (Name RecordName : String) {Expected : Nat}
    (hj7 : j + 7 ≤ N.length)
    (hc : charAt N j = ',') (hsp : charAt N (j + 1) = ' ')
    (hi32 : matchAt N (j + 2) i32Tok = true)
    (hffno : firstIdxNotOf NumberSymbols (N.drop (j + 6)) = some 1)
    (hchar : N.drop (j + 6) = c :: N.drop (j + 7))
    (hstoi : stoiU32 [c] = some Expected) :
    ReplaceRecord (U ++ N ++ V) (U.length + j) [c] Name RecordName Expected =
      .ok (U ++ N ++ V, U.length + j + 2 + 4 + 1) := by
  have hlen := length_ctx (U := U) (N := N) (V := V)
  have hcD : charAt (U ++ N ++ V) (U.length + j) = ',' := by
    rw [charAt_ctx (by omega)]; exact hc
  have hspD : charAt (U ++ N ++ V) (U.length + j + 1) = ' ' := by
    rw [show U.length + j + 1 = U.length + (j + 1) by omega, charAt_ctx (by omega)]; exact hsp
  have hi32D : matchAt (U ++ N ++ V) (U.length + j + 2) i32Tok = true := by
    rw [show U.length + j + 2 = U.length + (j + 2) by omega,
      matchAt_ctx i32Tok (by simp [i32Tok]; omega)]
    exact hi32
  have hffnoD : strFindFirstNotOf (U ++ N ++ V) NumberSymbols (U.length + j + 2 + 4) =
      some (U.length + j + 2 + 4 + 1) := by
    rw [show U.length + j + 2 + 4 = U.length + (j + 6) by omega, strFFNO_ctx (by omega) hffno]
  have hlt : U.length + j + 1 < (U ++ N ++ V).length := by omega
  have hdrop6 : (U ++ N ++ V).drop (U.length + j + 2 + 4) =
      c :: (U ++ N ++ V).drop (U.length + j + 2 + 4 + 1) := by
    rw [show U.length + j + 2 + 4 + 1 = U.length + (j + 7) by omega]
    rw [show U.length + j + 2 + 4 = U.length + (j + 6) by omega]
    rw [drop_ctx (by omega), hchar, drop_ctx (by omega)]
    rfl
  have hsubD : substr (U ++ N ++ V) (U.length + j + 2 + 4)
      (U.length + j + 2 + 4 + 1 - (U.length + j + 2 + 4)) = [c] := by
    unfold substr
    rw [show U.length + j + 2 + 4 + 1 - (U.length + j + 2 + 4) = 1 by omega, hdrop6]
    rfl
  have hrepl : strReplace (U ++ N ++ V) (U.length + j + 2 + 4) 1 [c] = U ++ N ++ V :=
    strReplace_id hdrop6
  have hglen : U.length + j + 2 + 4 + 1 - (U.length + j + 2 + 4) = 1 := by omega
  simp only [ReplaceRecord]
  rw [if_neg (not_not_intro ⟨hlt, hcD, hspD⟩)]
  rw [if_neg (not_not_intro hi32D)]
  rw [hffnoD]
  simp only [Option.getD_some]
  rw [hsubD, hstoi]
  simp [hglen]
  have hrepl2 := hrepl
  simp only [List.append_assoc] at hrepl2
  exact hrepl2

/-- A resource name whose text is itself a declaration-shaped record matching
its own binding (original space 5, bind point 6, record id 7). -/
def hostileName : String :=
  "= !\x7bi32 7, %\"class.StructuredBuffer<i32>\", !\"\", i32 5, i32 6\x7d"

/-- The character buffer of `hostileName` (61 characters). -/
def hostileN : Str := hostileName.data

/-- Extended map with the single hostile entry, before any record id is
discovered. -/
def hostileExt0 : TExtendedResourceMap :=
  [⟨0, hostileName, ⟨6, 5, 1⟩, ⟨6, 5, 4294967295, RES_TYPE.SRV⟩⟩]

/-- Extended map with the hostile entry after record id 7 was discovered
(a fixed point of every further iteration). -/
def hostileExt : TExtendedResourceMap :=
  [⟨0, hostileName, ⟨6, 5, 1⟩, ⟨6, 5, 7, RES_TYPE.SRV⟩⟩]

theorem hostile_step (U V : Str) :
    patchDeclStep (U ++ hostileN ++ V) (U.length + 15) hostileExt =
      .next ((U ++ hostileN.take 45) ++ hostileN ++ (hostileN.drop 45 ++ V))
        (U.length + 60) hostileExt := by
  have hlen61 : hostileN.length = 61 := by decide
  have hlenD := length_ctx (U := U) (N := hostileN) (V := V)
  have hhead : ¬ ((U ++ hostileN ++ V).length ≤ U.length + 15) := by omega
  have hfind : strFind (U ++ hostileN ++ V) ResNameDecl (U.length + 15) =
      some (U.length + 41) := by
    have h0 := @strFind_ctx U hostileN V ResNameDecl 15 26 (by decide) (by decide) (by decide)
    rw [show U.length + 15 + 26 = U.length + 41 by omega] at h0
    exact h0
  have hRNlen : (ResNameDecl : Str).length = 4 := by decide
  have hRRlen : (ResourceRecStart : Str).length = 4 := by decide
  have hi32len : (i32Tok : Str).length = 4 := by decide
  have hrrn : ReadResName (U ++ hostileN ++ V) (U.length + 41 + 4) =
      (some [], U.length + 41 + 4) := by
    refine ReadResName_quote (w := hostileN.drop 46 ++ V) ?_
    rw [show U.length + 41 + 4 = U.length + 45 by omega, drop_ctx (by rw [hlen61]; omega)]
    rw [show hostileN.drop 45 = '"' :: hostileN.drop 46 from by decide]
    rfl
  have hrfind : rfindUpTo (U ++ hostileN ++ V) ResourceRecStart (U.length + 41) =
      some U.length := by
    apply rfindUpTo_found (U.length + 41) (by omega)
    · have h := matchAt_ctx (U := U) (N := hostileN) (V := V) (k := 0) ResourceRecStart
        (by rw [hRRlen, hlen61]; omega)
      simp only [Nat.add_zero] at h
      rw [h]
      decide
    · intro j hj1 hj2
      have hj3 : j = U.length + (j - U.length - 1 + 1) := by omega
      rw [hj3, matchAt_ctx ResourceRecStart (by rw [hRRlen, hlen61]; omega)]
      exact (by decide : ∀ o, o < 41 → matchAt hostileN (o + 1) ResourceRecStart = false)
        (j - U.length - 1) (by omega)
  have hi32r : matchAt (U ++ hostileN ++ V) (U.length + 4) i32Tok = true := by
    rw [matchAt_ctx i32Tok (by rw [hi32len, hlen61]; omega)]
    decide
  have hffnoRID : strFindFirstNotOf (U ++ hostileN ++ V) NumberSymbols (U.length + 4 + 4) =
      some (U.length + 9) := by
    rw [show U.length + 4 + 4 = U.length + 8 by omega]
    have h := @strFFNO_ctx U hostileN V NumberSymbols 8 1 (by rw [hlen61]; omega) (by decide)
    rw [show U.length + 8 + 1 = U.length + 9 by omega] at h
    exact h
  have hatoi : toU32 (atoiAt (U ++ hostileN ++ V) (U.length + 4 + 4)) = 7 := by
    have hA : atoiAt (U ++ hostileN ++ V) (U.length + 4 + 4) = 7 := by
      simp only [atoiAt]
      rw [show U.length + 4 + 4 = U.length + 8 by omega, drop_ctx (by rw [hlen61]; omega)]
      rw [show hostileN.drop 8 = '7' :: ',' :: hostileN.drop 10 from by decide]
      rw [show ('7' :: ',' :: hostileN.drop 10) ++ V = '7' :: ',' :: (hostileN.drop 10 ++ V)
        from rfl]
      rw [List.dropWhile_cons, show isSpaceChar '7' = false from by decide]
      simp only [Bool.false_eq_true, if_false]
      rw [parse_digit_comma (by decide) (by decide)]
      decide
    rw [hA]
    decide
  have hlt10 : List.length U + 9 + 1 < List.length (U ++ hostileN ++ V) := by omega
  have hc9 : charAt (U ++ hostileN ++ V) (List.length U + 9) = ',' := by
    rw [charAt_ctx (by omega)]; decide
  have hc10 : charAt (U ++ hostileN ++ V) (List.length U + 9 + 1) = ' ' := by
    rw [show U.length + 9 + 1 = U.length + 10 by omega, charAt_ctx (by omega)]; decide
  have hc11 : charAt (U ++ hostileN ++ V) (List.length U + 9 + 2) = '%' := by
    rw [show U.length + 9 + 2 = U.length + 11 by omega, charAt_ctx (by omega)]; decide
  have hpb : ¬ ('%' : Char) = '[' := by decide
  have hc12 : charAt (U ++ hostileN ++ V) (List.length U + 9 + 2 + 1) = '"' := by
    rw [show U.length + 9 + 2 + 1 = U.length + 12 by omega, charAt_ctx (by omega)]; decide
  have hmAlign : matchAt (U ++ hostileN ++ V) (List.length U + 9 + 2 + 1 + 1)
      DxAlignmentLegacyPart = false := by
    rw [show U.length + 9 + 2 + 1 + 1 = U.length + 13 by omega,
      matchAt_ctx DxAlignmentLegacyPart (by decide)]
    decide
  have hmStruct : matchAt (U ++ hostileN ++ V) (List.length U + 9 + 2 + 1 + 1)
      StructPart = false := by
    rw [show U.length + 9 + 2 + 1 + 1 = U.length + 13 by omega,
      matchAt_ctx StructPart (by decide)]
    decide
  have hmClass : matchAt (U ++ hostileN ++ V) (List.length U + 9 + 2 + 1 + 1)
      ClassPart = true := by
    rw [show U.length + 9 + 2 + 1 + 1 = U.length + 13 by omega,
      matchAt_ctx ClassPart (by decide)]
    decide
  have hClassLen : (ClassPart : Str).length = 6 := by decide
  have hmSampler : matchAt (U ++ hostileN ++ V) (List.length U + 9 + 2 + 1 + 1 + 6)
      SamplerPart = false := by
    rw [show U.length + 9 + 2 + 1 + 1 + 6 = U.length + 19 by omega,
      matchAt_ctx SamplerPart (by decide)]
    decide
  have hmTexture : matchAt (U ++ hostileN ++ V) (List.length U + 9 + 2 + 1 + 1 + 6)
      TexturePart = false := by
    rw [show U.length + 9 + 2 + 1 + 1 + 6 = U.length + 19 by omega,
      matchAt_ctx TexturePart (by decide)]
    decide
  have hmSB : matchAt (U ++ hostileN ++ V) (List.length U + 9 + 2 + 1 + 1 + 6)
      StructBufferPart = true := by
    rw [show U.length + 9 + 2 + 1 + 1 + 6 = U.length + 19 by omega,
      matchAt_ctx StructBufferPart (by decide)]
    decide
  have hSRVne : ¬ (RES_TYPE.SRV = RES_TYPE.INVALID) := by decide
  have hRR1 : ReadRecord (U ++ hostileN ++ V) (List.length U + 41 + 4 + 1) =
      .ok (some 5, List.length U + 46 + 2 + 4 + 1) := by
    rw [show U.length + 41 + 4 + 1 = U.length + 46 by omega]
    exact ReadRecord_ctx hostileN (by decide) (by decide) (by decide) (by decide)
      (by decide) (by decide) (by decide)
  have hRR2 : ReadRecord (U ++ hostileN ++ V) (List.length U + 46 + 2 + 4 + 1) =
      .ok (some 6, List.length U + 53 + 2 + 4 + 1) := by
    rw [show U.length + 46 + 2 + 4 + 1 = U.length + 53 by omega]
    exact ReadRecord_ctx hostileN (by decide) (by decide) (by decide) (by decide)
      (by decide) (by decide) (by decide)
  have hfindE : hostileExt.find? (fun e =>
      e.info.SrcBindPoint == 6 && e.info.SrcSpace == 5 && e.info.Ty == RES_TYPE.SRV) =
      some ⟨0, hostileName, ⟨6, 5, 1⟩, ⟨6, 5, 7, RES_TYPE.SRV⟩⟩ := by decide
  have hupd : updateRecordId hostileExt 0 7 = hostileExt := by decide
  have hu5 : u32Str 5 = ['5'] := by decide
  have hu6 : u32Str 6 = ['6'] := by decide
  have hrep1 : ReplaceRecord (U ++ hostileN ++ V) (List.length U + 41 + 4 + 1) ['5']
      hostileName "space" 5 = .ok (U ++ hostileN ++ V, List.length U + 46 + 2 + 4 + 1) := by
    rw [show U.length + 41 + 4 + 1 = U.length + 46 by omega]
    exact ReplaceRecord_ctx_id hostileN hostileName "space" (by decide) (by decide)
      (by decide) (by decide) (by decide) (by decide) (by decide)
  have hrep2 : ReplaceRecord (U ++ hostileN ++ V) (List.length U + 46 + 2 + 4 + 1) ['6']
      hostileName "register" 6 = .ok (U ++ hostileN ++ V, List.length U + 53 + 2 + 4 + 1) := by
    rw [show U.length + 46 + 2 + 4 + 1 = U.length + 53 by omega]
    exact ReplaceRecord_ctx_id hostileN hostileName "register" (by decide) (by decide)
      (by decide) (by decide) (by decide) (by decide) (by decide)
  have hins : strInsert (U ++ hostileN ++ V) (List.length U + 41 + 4) hostileName.data =
      (U ++ hostileN.take 45) ++ hostileN ++ (hostileN.drop 45 ++ V) := by
    rw [show U.length + 41 + 4 = U.length + 45 by omega]
    exact strInsert_ctx (by decide)
  simp only [patchDeclStep, hhead, hfind, if_false, hRNlen, hrrn, hrfind, hRRlen, hi32len,
    hi32r, hffnoRID, hatoi, hlt10, hc9, hc10, hc11, hpb, hc12, hmAlign, hmStruct, hmClass,
    hClassLen, classifyResType, hmSampler, hmTexture, hmSB, Bool.false_and, hSRVne, hRR1,
    hRR2, hfindE, hupd, hu5, hu6, hrep1, hrep2, hins, List.isEmpty_nil, if_true, ne_eq,
    eq_self_iff_true, not_true, and_true, true_and, Bool.false_eq_true, not_false_iff]

/-- `std::string::find(pat, i)` never returns a hit before `i`. -/
theorem strFind_ge {s pat : Str} {i f : Nat} (h : strFind s pat i = some f) : i ≤ f := by
  unfold strFind at h
  cases ho : firstOcc (s.drop i) pat with
  | none => rw [ho] at h; cases h
  | some k =>
    rw [ho] at h
    simp only [Option.map_some'] at h
    injection h with h1
    omega

/-- The `ReadResName` scanning core never moves its cursor backwards. -/
theorem readResNameEnd_ge (DXIL : Str) (p : Nat) : p ≤ (readResNameEnd DXIL p).2 := by
  unfold readResNameEnd
  cases h : readResNameAux (DXIL.drop p) with
  | mk o d =>
    cases o with
    | none => exact Nat.le_add_right p d
    | some k => exact Nat.le_add_right p k

/-- `ReadResName` never moves its by-reference cursor backwards. -/
theorem ReadResName_ge (DXIL : Str) (p : Nat) : p ≤ (ReadResName DXIL p).2 := by
  have h := readResNameEnd_ge DXIL p
  unfold ReadResName
  cases he : readResNameEnd DXIL p with
  | mk o q =>
    rw [he] at h
    cases o with
    | none => exact h
    | some e => exact h

/-- A non-throwing `ReadRecord` never moves its by-reference cursor
backwards. -/
theorem ReadRecord_ge {DXIL : Str} {pos pos' : Nat} {o : Option Nat}
    (h : ReadRecord DXIL pos = .ok (o, pos')) : pos ≤ pos' := by
  simp only [ReadRecord] at h
  split at h
  · injection h with h1
    injection h1 with h2 h3
    omega
  next hgate =>
    split at h
    · injection h with h1
      injection h1 with h2 h3
      omega
    next hi32 =>
      split at h
      · cases h
      next v hv =>
        injection h with h1
        injection h1 with h2 h3
        push_neg at hi32
        have hle6 : pos + 2 + 4 ≤ DXIL.length := by
          have := matchAt_le_length hi32 (by decide)
          simpa [i32Tok] using this
        have hrec := @ffno_getD_ge DXIL NumberSymbols (pos + 2 + 4) hle6
        omega


set_option maxHeartbeats 2000000 in
/-- Whenever one iteration of the generic declaration scan continues, the
resumed cursor lies strictly beyond the cursor the iteration started at. -/
theorem patchDeclStep_next_lt {DXIL : Str} {pos0 : Nat} {ext : TExtendedResourceMap}
    {D' : Str} {pos' : Nat} {ext' : TExtendedResourceMap}
    (h : patchDeclStep DXIL pos0 ext = DeclStep.next D' pos' ext') : pos0 < pos' := by
  have hRN : 0 < (ResNameDecl : Str).length := by decide
  unfold patchDeclStep at h
  split at h
  · cases h
  split at h
  · cases h
  next f hf =>
    have hf0 := strFind_ge hf
    simp only [] at h
    split at h
    next p1 hrn =>
      have hge := ReadResName_ge DXIL (f + ResNameDecl.length)
      rw [hrn] at hge
      have hge2 : f + ResNameDecl.length ≤ p1 := hge
      injection h with h1 h2 h3
      omega
    next nm p1 hrn =>
      have hge := ReadResName_ge DXIL (f + ResNameDecl.length)
      rw [hrn] at hge
      have hge2 : f + ResNameDecl.length ≤ p1 := hge
      split at h
      · cases h
      next r hr =>
        by_cases hi32 : matchAt DXIL (r + ResourceRecStart.length) i32Tok = true
        case neg =>
          rw [if_pos hi32] at h
          injection h with h1 h2 h3
          omega
        case pos =>
          rw [if_neg (not_not_intro hi32)] at h
          cases hffno : strFindFirstNotOf DXIL NumberSymbols
              (r + ResourceRecStart.length + i32Tok.length) with
          | none =>
            rw [hffno] at h
            cases h
          | some p2 =>
            rw [hffno] at h
            simp only [] at h
            by_cases hgate : p2 + 1 < DXIL.length ∧ charAt DXIL p2 = ',' ∧
                charAt DXIL (p2 + 1) = ' '
            case neg =>
              rw [if_pos hgate] at h
              cases h
            case pos =>
              rw [if_neg (not_not_intro hgate)] at h
              by_cases hpct : charAt DXIL
                  (if charAt DXIL (p2 + 2) = '[' then skipArrayDecl DXIL f (p2 + 2 + 1)
                   else p2 + 2) = '%'
              case neg =>
                rw [if_pos hpct] at h
                injection h with h1 h2 h3
                omega
              case pos =>
                rw [if_neg (not_not_intro hpct)] at h
                set pA := (if charAt DXIL (p2 + 2) = '[' then
                    skipArrayDecl DXIL f (p2 + 2 + 1) else p2 + 2) with hpA
                set pB := (if charAt DXIL (pA + 1) = '"' then pA + 1 + 1 else pA + 1) with hpB
                set pC := (if matchAt DXIL pB DxAlignmentLegacyPart = true then
                    pB + DxAlignmentLegacyPart.length else pB) with hpC
                set pD := (if matchAt DXIL pC StructPart = true then
                    pC + StructPart.length else pC) with hpD
                set pE := (if matchAt DXIL pD ClassPart = true then
                    pD + ClassPart.length else pD) with hpE
                split at h
                · injection h with h1 h2 h3
                  omega
                next hinv =>
                  split at h
                  · cases h
                  next p3 hRR1 =>
                    have hg1 := ReadRecord_ge hRR1
                    injection h with h1 h2 h3
                    omega
                  next Sp p3 hRR1 =>
                    have hg1 := ReadRecord_ge hRR1
                    split at h
                    · cases h
                    next p4 hRR2 =>
                      have hg2 := ReadRecord_ge hRR2
                      injection h with h1 h2 h3
                      omega
                    next Bp p4 hRR2 =>
                      split at h
                      · cases h
                      next en hen =>
                        split at h
                        · cases h
                        next d1 q1 hrep1 =>
                          have hq1 := (ReplaceRecord_ok_cursor hrep1).1
                          split at h
                          · cases h
                          next d2 q2 hrep2 =>
                            have hq2 := (ReplaceRecord_ok_cursor hrep2).1
                            split at h
                            · injection h with h1 h2 h3
                              omega
                            · injection h with h1 h2 h3
                              omega

set_option maxHeartbeats 2000000 in
/-- Whenever one iteration of the `createHandle` scan continues, the resumed
cursor lies strictly beyond the cursor the iteration started at. -/
theorem patchHandleStep_next_lt {ext : TExtendedResourceMap} {DXIL : Str} {pos0 : Nat}
    {D' : Str} {pos' : Nat}
    (h : patchHandleStep ext DXIL pos0 = HandleStep.next D' pos') : pos0 < pos' := by
  have hCH : 0 < (CallHandlePattern : Str).length := by decide
  unfold patchHandleStep at h
  split at h
  · cases h
  split at h
  · cases h
  next f hf =>
    have hf0 := strFind_ge hf
    simp only [] at h
    split at h
    · cases h
    next hi32 =>
      split at h
      · cases h
      next p1 hna1 =>
        have hg1 := NextArg_ge DXIL (f + CallHandlePattern.length + i32Tok.length)
        rw [hna1] at hg1
        have hg1b : f + CallHandlePattern.length + i32Tok.length ≤ p1 := hg1
        split at h
        · cases h
        next hgate1 =>
          split at h
          · cases h
          next hi8 =>
            split at h
            · cases h
            next p2 hna2 =>
              have hg2 := NextArg_ge DXIL (p1 + 2 + i8Tok.length)
              rw [hna2] at hg2
              have hg2b : p1 + 2 + i8Tok.length ≤ p2 := hg2
              split at h
              · cases h
              next hgate2 =>
                split at h
                · cases h
                next hi32b =>
                  split at h
                  · cases h
                  next p3 hna3 =>
                    have hg3 := NextArg_ge DXIL (p2 + 2 + i32Tok.length)
                    rw [hna3] at hg3
                    have hg3b : p2 + 2 + i32Tok.length ≤ p3 := hg3
                    split at h
                    · cases h
                    next hgate3 =>
                      split at h
                      · cases h
                      next hi32c =>
                        split at h
                        · cases h
                        next p4 hna4 =>
                          have hg4 := NextArg_ge DXIL (p3 + 2 + i32Tok.length)
                          rw [hna4] at hg4
                          have hg4b : p3 + 2 + i32Tok.length ≤ p4 := hg4
                          split at h
                          · cases h
                          next c rest hsub =>
                            split at h
                            · split at h
                              · cases h
                              next d hdy =>
                                injection h with h1 h2
                                omega
                            · split at h
                              · cases h
                              next d hrb =>
                                injection h with h1 h2
                                omega

/-- Invariant of the hostile run: from any buffer `U ++ hostileN ++ V` with
the cursor 15 characters into the hostile record, the declaration scan
consumes all its fuel without ever finishing. -/
theorem hostileLoop_fuelOut : ∀ (fuel : Nat) (U V : Str),
    patchDeclLoop fuel (U ++ hostileN ++ V) (U.length + 15) hostileExt =
      PatchOut.fuelOut := by
  intro fuel
  induction fuel with
  | zero => intro U V; rfl
  | succ n ih =>
    intro U V
    simp only [patchDeclLoop, hostile_step U V]
    have htk : (U ++ hostileN.take 45).length = U.length + 45 := by
      rw [List.length_append]
      norm_num [hostileN, hostileName]
    have h := ih (U ++ hostileN.take 45) (hostileN.drop 45 ++ V)
    rw [htk] at h
    rw [show U.length + 60 = U.length + 45 + 15 by omega]
    exact h

/-- The first iteration on the bare hostile record discovers record id 7 and
re-inserts the full record text at the empty-name position. -/
theorem hostileStart :
    patchDeclStep hostileN 0 hostileExt0 =
      DeclStep.next (hostileN.take 45 ++ hostileN ++ hostileN.drop 45) 60 hostileExt := by
  decide

/-- The generic declaration pass never terminates on the hostile record: for
every fuel bound it runs out of fuel. -/
theorem hostileDecl_fuelOut (fuel : Nat) :
    PatchResourceDeclaration fuel hostileExt0 hostileN = PatchOut.fuelOut := by
  cases fuel with
  | zero => rfl
  | succ n =>
    show patchDeclLoop (n + 1) hostileN 0 hostileExt0 = PatchOut.fuelOut
    simp only [patchDeclLoop, hostileStart]
    have h := hostileLoop_fuelOut n (hostileN.take 45) (hostileN.drop 45)
    rw [show (hostileN.take 45 : Str).length + 15 = 60 from by decide] at h
    exact h

/-- Extended map for a concrete `createHandle` rewrite (range id 3, SRV range
`[5, 7)` mapped to bind point 7). -/
def h9Ext : TExtendedResourceMap := [⟨0, "g_Tex", ⟨7, 0, 2⟩, ⟨5, 0, 3, RES_TYPE.SRV⟩⟩]

/-- A well-formed `createHandle` call site with literal index 5. -/
def h9Buf : Str :=
  "%1 = call %dx.types.Handle @dx.op.createHandle(i32 57, i8 0, i32 3, i32 5, i1 false)\n".data

/-- The same call site after the index literal is rewritten to 7. -/
def h9Out : Str :=
  "%1 = call %dx.types.Handle @dx.op.createHandle(i32 57, i8 0, i32 3, i32 7, i1 false)\n".data

/-- C9: the claim that each scanning loop advances its cursor strictly
monotonically between iterations is true of both loop bodies, but the claimed
consequence — that every pass therefore terminates on every input — is false:
the generic declaration pass grows the buffer ahead of the cursor when it
re-inserts an empty resource's name, and on `hostileN` (a binding request
whose requested name is the text of its own declaration record) the pass
consumes every fuel bound without completing or failing. -/
theorem C9_nontermination_counterexample :
    (fun fuel => PatchResourceDeclaration fuel hostileExt0 hostileN) =
      (fun _ => PatchOut.fuelOut) :=
  funext hostileDecl_fuelOut

/-- C9 (amended): both scanning-loop bodies advance their cursor strictly
between iterations — whenever an iteration of the generic declaration scan or
of the handle-creation scan continues, the resumed cursor is strictly larger —
yet this does not bound the number of iterations: the generic declaration
scan, started at cursor 0 on the self-replicating record `hostileN`, exhausts
every fuel bound, because each iteration inserts the 61-character record text
before the resumed cursor and the cursor never reaches the end of the growing
buffer. -/
theorem C9_cursor_monotone_no_termination :
    (∀ (DXIL : Str) (pos : Nat) (ext : TExtendedResourceMap) (D' : Str) (pos' : Nat)
        (ext' : TExtendedResourceMap),
        patchDeclStep DXIL pos ext = DeclStep.next D' pos' ext' → pos < pos') ∧
    (∀ (ext : TExtendedResourceMap) (DXIL : Str) (pos : Nat) (D' : Str) (pos' : Nat),
        patchHandleStep ext DXIL pos = HandleStep.next D' pos' → pos < pos') ∧
    (∀ fuel : Nat, patchDeclLoop fuel hostileN 0 hostileExt0 = PatchOut.fuelOut) :=
  ⟨fun _ _ _ _ _ _ h => patchDeclStep_next_lt h,
   fun _ _ _ _ _ h => patchHandleStep_next_lt h,
   fun fuel => hostileDecl_fuelOut fuel⟩

/-- Concrete instantiation of `C9_cursor_monotone_no_termination`: the first
hostile declaration iteration advances the cursor from 0 to 60, a concrete
handle iteration advances it from 0 to 73, and the hostile run exhausts a
fuel bound of 7. -/
theorem C9_cursor_monotone_no_termination_witness :
    ((0 : Nat) < 60 ∧ (0 : Nat) < 73) ∧
      patchDeclLoop 7 hostileN 0 hostileExt0 = PatchOut.fuelOut :=
  ⟨⟨C9_cursor_monotone_no_termination.1 hostileN 0 hostileExt0
      (hostileN.take 45 ++ hostileN ++ hostileN.drop 45) 60 hostileExt (by decide),
    C9_cursor_monotone_no_termination.2.1 h9Ext h9Buf 0 h9Out 73 (by decide)⟩,
   C9_cursor_monotone_no_termination.2.2 7⟩
